import Mathlib

/-!
# Verification of the BIU Agent feature layer (wren-bau repository)

This file shallowly embeds the data model and operations of the BIU Agent
component (GraphQL resolvers, the Wren/CSV/SQLite data backends, the chat
polling loop) and proves or refutes the frozen claims about them.

Strings manipulated character-by-character by the source (the hand-rolled CSV
parser of `biuAgentCsvService.ts`, the SQL customer-filter injection of
`biuAgentResolver.ts`) are modelled as lists of character codes (`List ℕ`),
with JavaScript's `toLowerCase`/`toUpperCase` restricted to ASCII letters,
which is the only range these code paths exercise.
-/

namespace BiuAgent

/-- Character codes of a Lean string literal (used to state byte-level facts). -/
def strB (s : String) : List ℕ := s.data.map Char.toNat

/-- ASCII lower-casing on character codes, modelling `String.prototype.toLowerCase`
on the ASCII range. -/
def lowerB (n : ℕ) : ℕ := if 65 ≤ n ∧ n ≤ 90 then n + 32 else n

/-- ASCII upper-casing on character codes, modelling `String.prototype.toUpperCase`
on the ASCII range. -/
def upperB (n : ℕ) : ℕ := if 97 ≤ n ∧ n ≤ 122 then n - 32 else n

/-- Whitespace test on character codes (space, tab, CR, LF), modelling the
characters `String.prototype.trim` removes in the inputs at hand. -/
def isWsB (n : ℕ) : Bool := n = 32 ∨ n = 9 ∨ n = 13 ∨ n = 10

/-- `String.prototype.trim` on character codes: drop leading and trailing
whitespace. -/
def trimB (l : List ℕ) : List ℕ :=
  ((l.dropWhile isWsB).reverse.dropWhile isWsB).reverse

/-- Substring test (`String.prototype.includes`): `pat` occurs contiguously in `l`. -/
def containsSubB (pat l : List ℕ) : Bool :=
  (List.range (l.length + 1)).any (fun i => pat.isPrefixOf (l.drop i))

theorem lowerB_idem (n : ℕ) : lowerB (lowerB n) = lowerB n := by
  simp only [lowerB]; split <;> (try split) <;> omega

theorem containsSubB_infix_iff (pat l : List ℕ) :
    containsSubB pat l = true ↔ pat <:+: l := by
  simp only [containsSubB, List.any_eq_true, List.mem_range,
    List.isPrefixOf_iff_prefix]
  constructor
  · rintro ⟨i, _, t, ht⟩
    exact ⟨l.take i, t, by rw [List.append_assoc, ht, List.take_append_drop]⟩
  · rintro ⟨s, t, rfl⟩
    refine ⟨s.length, by simp; omega, ?_⟩
    rw [List.append_assoc, List.drop_left]
    exact List.prefix_append _ _

/-! ## The hand-rolled CSV parser (`biuAgentCsvService.ts`, `parseCsv`/`parseCsvLine`)

`parseCsvLine` walks a line character by character keeping an `inQuotes` flag:
a doubled quote inside quotes emits a literal quote, an unquoted comma ends the
field, each pushed field is trimmed and a literal `NULL` becomes the empty
string.  `parseCsv` splits on newlines, drops blank lines, takes the first line
as comma-separated headers, skips any data line whose field count differs from
the header count, and converts each field that parses as a number to a number.
-/

/-- The value pushed for an accumulated field: `current.trim() === 'NULL' ? '' :
current.trim()` (source `parseCsvLine`, final push and comma case). -/
def finishVal (cur : List ℕ) : List ℕ :=
  if trimB cur = strB "NULL" then [] else trimB cur

/-- The character-walking loop of `parseCsvLine` (source lines 123-150).
Code 34 is `"`, code 44 is `,`. -/
def parseCsvLineGo : List ℕ → Bool → List ℕ → List (List ℕ) → List (List ℕ)
  | [], _, cur, vs => vs ++ [finishVal cur]
  | 34 :: 34 :: rest, true, cur, vs => parseCsvLineGo rest true (cur ++ [34]) vs
  | 34 :: rest, true, cur, vs => parseCsvLineGo rest false cur vs
  | 34 :: rest, false, cur, vs => parseCsvLineGo rest true cur vs
  | 44 :: rest, false, cur, vs => parseCsvLineGo rest false [] (vs ++ [finishVal cur])
  | c :: rest, q, cur, vs => parseCsvLineGo rest q (cur ++ [c]) vs

/-- `parseCsvLine(line)`: split a CSV line into trimmed field values, handling
quoted values and `NULL`. -/
def parseCsvLineB (line : List ℕ) : List (List ℕ) :=
  parseCsvLineGo line false [] []

/-- A JS number recognizer for `Number(value)`/`isNaN` as used by `parseCsv`:
an optional sign, then digits with at most one decimal point and at least one
digit.  (Models the decimal literals occurring in the CSV data; JS `Number`
also accepts hex/exponent forms which never arise here.) -/
def isNumericB (l : List ℕ) : Bool :=
  let digits := fun m : List ℕ => m ≠ [] ∧ m.all (fun c => 48 ≤ c ∧ c ≤ 57)
  let body := fun m : List ℕ =>
    digits m ∨ (∃ i ∈ List.range m.length, m.get? i = some 46 ∧
      digits ((m.take i) ++ (m.drop (i + 1))) )
  let core := match l with
    | 43 :: rest => rest  -- leading +
    | 45 :: rest => rest  -- leading -
    | rest => rest
  decide (body core)

/-- A parsed CSV cell: either kept as a (trimmed) string or converted to a
number (`record[header] = value === '' || isNaN(numValue) ? value : numValue`).
The raw trimmed character data is carried in both cases; the constructor
records which representation the JS code stores. -/
inductive CsvFieldB where
  | strF (v : List ℕ)
  | numF (v : List ℕ)
deriving DecidableEq, Repr

/-- Field conversion applied by `parseCsv` to each value. -/
def mkFieldB (v : List ℕ) : CsvFieldB :=
  if v = [] then .strF v
  else if isNumericB v then .numF v
  else .strF v

/-- `content.split('\n').filter(line => line.trim())` (source line 97). -/
def csvLines (content : List ℕ) : List (List ℕ) :=
  (content.splitOn 10).filter (fun l => trimB l ≠ [])

/-- The header row: `lines[0].split(',').map(h => h.trim())` (source line 100).
Note the header line is split on plain commas, without quote handling. -/
def headersOf (content : List ℕ) : List (List ℕ) :=
  match csvLines content with
  | [] => []
  | h :: _ => (h.splitOn 44).map trimB

/-- The data lines: `lines[1..]`. -/
def dataLinesOf (content : List ℕ) : List (List ℕ) :=
  (csvLines content).tail

/-- `parseCsv(content)` (source lines 96-118): records are association lists
pairing each header with the converted value at its column index; lines whose
parsed field count differs from the header count are skipped. -/
def parseCsvB (content : List ℕ) : List (List (List ℕ × CsvFieldB)) :=
  match csvLines content with
  | [] => []
  | h :: rest =>
    let headers := (h.splitOn 44).map trimB
    rest.filterMap (fun line =>
      let values := parseCsvLineB line
      if values.length = headers.length then
        some (headers.zip (values.map (fun v => mkFieldB (trimB v))))
      else none)

example : parseCsvLineB (strB "\"a,b\",c") = [strB "a,b", strB "c"] := by decide
example : parseCsvLineB (strB "\"a\"\"b\"") = [strB "a\"b"] := by decide
example : parseCsvLineB (strB " NULL ,x") = [[], strB "x"] := by decide
example : mkFieldB (strB "12.5") = .numF (strB "12.5") := by decide
example : mkFieldB (strB "-7") = .numF (strB "-7") := by decide
example : mkFieldB (strB "abc") = .strF (strB "abc") := by decide
example : mkFieldB [] = .strF [] := by decide
example :
    parseCsvB (strB "A,B\n1,x\n2\n3,\"y,z\"") =
      [[(strB "A", .numF (strB "1")), (strB "B", .strF (strB "x"))],
       [(strB "A", .numF (strB "3")), (strB "B", .strF (strB "y,z"))]] := by decide

/-- Counting a `filterMap` whose function is an `if … then some … else none`:
it keeps exactly the elements passing the test. -/
theorem length_filterMap_ite {α β : Type} (l : List α) (p : α → Prop)
    [DecidablePred p] (g : α → β) :
    (l.filterMap (fun x => if p x then some (g x) else none)).length
      = (l.filter (fun x => p x)).length := by
  induction l with
  | nil => rfl
  | cons a t ih =>
    by_cases h : p a <;> simp [List.filterMap_cons, h, ih]

/-- C9: the hand-rolled CSV parser is total (it is a total function by
construction, raising nothing) and shape-preserving: every record produced by
`parseCsv` has exactly one entry per header column; the number of records
equals the number of data lines whose parsed field count matches the header
count (mismatching lines are silently dropped); within a line, quoted fields
may contain commas, a doubled quote inside quotes yields a literal quote, a
literal `NULL` field becomes the empty string, and a field parsing as a number
is stored as a number while other fields are stored as trimmed strings. -/
theorem parseCsv_total_and_shape (content : List ℕ) :
    (∀ r ∈ parseCsvB content, r.length = (headersOf content).length)
    ∧ (parseCsvB content).length =
        ((dataLinesOf content).filter
          (fun l => (parseCsvLineB l).length = (headersOf content).length)).length
    ∧ parseCsvLineB (strB "\"a,b\",c") = [strB "a,b", strB "c"]
    ∧ parseCsvLineB (strB "\"a\"\"b\"") = [strB "a\"b"]
    ∧ parseCsvLineB (strB " NULL ,x") = [[], strB "x"]
    ∧ mkFieldB (strB "12.5") = .numF (strB "12.5")
    ∧ mkFieldB (strB "abc") = .strF (strB "abc") := by
  refine ⟨?_, ?_, by decide, by decide, by decide, by decide, by decide⟩
  · intro r hr
    unfold parseCsvB headersOf at *
    cases hcl : csvLines content with
    | nil => rw [hcl] at hr; simp at hr
    | cons h rest =>
      rw [hcl] at hr
      simp only [List.mem_filterMap] at hr
      obtain ⟨line, -, hline⟩ := hr
      split at hline
      · next hlen =>
        cases hline
        simp [List.length_zip, hlen]
      · cases hline
  · unfold parseCsvB headersOf dataLinesOf
    cases hcl : csvLines content with
    | nil => simp
    | cons h rest =>
      simp only [List.tail_cons]
      exact length_filterMap_ite rest
        (fun line => (parseCsvLineB line).length = ((h.splitOn 44).map trimB).length)
        (fun line => ((h.splitOn 44).map trimB).zip
          ((parseCsvLineB line).map (fun v => mkFieldB (trimB v))))

/-- Witness for C9: evaluating the parser on a concrete file; the first record
of `"A,B\n1,x"` has one entry per header column. -/
theorem parseCsv_total_and_shape_witness :
    [(strB "A", CsvFieldB.numF (strB "1")), (strB "B", CsvFieldB.strF (strB "x"))].length
      = (headersOf (strB "A,B\n1,x")).length :=
  (parseCsv_total_and_shape (strB "A,B\n1,x")).1 _ (by decide)

/-! ## Customer-filter injection in `chatQuery` (`biuAgentResolver.ts` lines 380-400)

The resolver takes the SQL candidate produced by the asking task and ensures it
filters by `customer_id`: if the lower-cased SQL already contains
`customer_id = '<cid>'` it is left alone; otherwise, if it contains `where`
(case-insensitive) each occurrence is replaced via
`sql.replace(/where/gi, "WHERE customer_id = '<cid>' AND")`; otherwise, if
`FROM` occurs in the upper-cased SQL, ` WHERE customer_id = '<cid>'` is
appended after splitting at that index.

`String.prototype.replace` does not insert a string replacement literally: it
applies ECMAScript `GetSubstitution` to it, expanding `$$` to `$`, `$&` to the
matched text, a `$` followed by code 96 to the text before the match, and `$'`
to the text after the match (the regex `/where/gi` has no capture groups, so
`$` followed by a digit or `<` stays literal).  The customer id is spliced into
the replacement template, so a customer id containing `$` can form such an
escape — e.g. an id ending in `$`, followed by the template's closing quote,
forms `$'`.
-/

/-- The filter substring `customer_id = '${customerId}'`. -/
def sqlNeedle (cid : List ℕ) : List ℕ := strB "customer_id = '" ++ cid ++ strB "'"

/-- The replacement template `WHERE customer_id = '${customerId}' AND` used
for each `where` occurrence (template-literal interpolation happens before
`replace` is called). -/
def whereRepl (cid : List ℕ) : List ℕ :=
  strB "WHERE customer_id = '" ++ cid ++ strB "' AND"

/-- ECMAScript `GetSubstitution` for a regex without capture groups: expand
`$$` (codes 36, 36), `$&` (36, 38), `$` + backquote (36, 96) and `$'`
(36, 39); any other `$` is literal. -/
def jsSubstitution (matched before after : List ℕ) : List ℕ → List ℕ
  | [] => []
  | c :: rest =>
    if c = 36 then
      match rest with
      | 36 :: rest2 => 36 :: jsSubstitution matched before after rest2
      | 38 :: rest2 => matched ++ jsSubstitution matched before after rest2
      | 96 :: rest2 => before ++ jsSubstitution matched before after rest2
      | 39 :: rest2 => after ++ jsSubstitution matched before after rest2
      | [] => [c]
      | c2 :: rest2 => c :: jsSubstitution matched before after (c2 :: rest2)
    else c :: jsSubstitution matched before after rest

/-- The scan of `sql.replace(/where/gi, repl)` over the original string
`orig`: `rem` is `orig.drop i`; each case-insensitive occurrence of `where` is
replaced by the `$`-substituted replacement — whose matched text is the actual
five characters and whose before/after texts are taken in the whole original
string — and scanning resumes after the match. -/
def replaceWhereGo (cid orig : List ℕ) : List ℕ → ℕ → List ℕ
  | a :: b :: c :: d :: e :: rest, i =>
    if [a, b, c, d, e].map lowerB = strB "where" then
      jsSubstitution [a, b, c, d, e] (orig.take i) rest (whereRepl cid)
        ++ replaceWhereGo cid orig rest (i + 5)
    else a :: replaceWhereGo cid orig (b :: c :: d :: e :: rest) (i + 1)
  | a :: rest, i => a :: replaceWhereGo cid orig rest (i + 1)
  | [], _ => []

/-- `sql.replace(/where/gi, whereRepl cid)`. -/
def replaceWhereB (cid sql : List ℕ) : List ℕ := replaceWhereGo cid sql sql 0

/-- `sql.toUpperCase().indexOf('FROM')`: first index at which `FROM` occurs in
the upper-cased SQL, if any. -/
def indexOfFromB (sql : List ℕ) : Option ℕ :=
  (List.range (sql.length + 1)).find?
    (fun i => (strB "FROM").isPrefixOf ((sql.map upperB).drop i))

/-- The `finalSql` computation of `chatQuery` (resolver lines 380-400). -/
def buildFinalSqlB (cid sql : List ℕ) : List ℕ :=
  if containsSubB (sqlNeedle cid) (sql.map lowerB) then sql
  else if containsSubB (strB "where") (sql.map lowerB) then replaceWhereB cid sql
  else
    match indexOfFromB sql with
    | some i =>
      sql.take i ++ strB " " ++ sql.drop i ++
        strB " WHERE customer_id = '" ++ cid ++ strB "'"
    | none => sql

example :
    buildFinalSqlB (strB "7") (strB "SELECT a FROM t") =
      strB "SELECT a  FROM t WHERE customer_id = '7'" := by decide
example :
    buildFinalSqlB (strB "7") (strB "SELECT * FROM t WHERE x = 1") =
      strB "SELECT * FROM t WHERE customer_id = '7' AND x = 1" := by decide

theorem whereRepl_eq (cid : List ℕ) :
    whereRepl cid = strB "WHERE " ++ sqlNeedle cid ++ strB " AND" := by
  have h1 : strB "WHERE customer_id = '" = strB "WHERE " ++ strB "customer_id = '" := by
    decide
  have h2 : strB "' AND" = strB "'" ++ strB " AND" := by decide
  simp [whereRepl, sqlNeedle, h1, h2]

/-- Lower-casing an already lower-cased byte list is the identity. -/
theorem map_lowerB_map_lowerB (l : List ℕ) :
    (l.map lowerB).map lowerB = l.map lowerB := by
  rw [List.map_map]
  exact List.map_congr_left (fun a _ => lowerB_idem a)

/-- A replacement text containing no `$` (code 36) is substituted literally. -/
theorem jsSubstitution_no_dollar (matched before after : List ℕ) :
    ∀ repl : List ℕ, (36 : ℕ) ∉ repl →
      jsSubstitution matched before after repl = repl := by
  intro repl
  induction repl with
  | nil => intro _; rw [jsSubstitution.eq_def]
  | cons c rest ih =>
    intro h
    have hc : c ≠ 36 := by
      intro hch
      exact h (by rw [hch]; exact List.mem_cons_self _ _)
    have ht : (36 : ℕ) ∉ rest := fun hm => h (List.mem_cons_of_mem c hm)
    rw [jsSubstitution.eq_def]
    simp [hc, ih ht]

/-- The replacement template is `$`-free whenever the customer id is. -/
theorem no_dollar_whereRepl (cid : List ℕ) (hcid : (36 : ℕ) ∉ cid) :
    (36 : ℕ) ∉ whereRepl cid := by
  intro hmem
  rcases List.mem_append.mp hmem with h | h
  · rcases List.mem_append.mp h with h2 | h2
    · exact absurd h2 (by decide)
    · exact hcid h2
  · exact absurd h (by decide)

/-- `where` is a prefix of the lower-cased view of a list with at least five
elements exactly when its first five lower-cased elements spell `where`. -/
theorem where_prefix_five (a b c d e : ℕ) (rest : List ℕ) :
    strB "where" <+: (a :: b :: c :: d :: e :: rest).map lowerB ↔
      [a, b, c, d, e].map lowerB = strB "where" := by
  have hw : strB "where" = [119, 104, 101, 114, 101] := by decide
  rw [hw]
  simp [List.cons_prefix_cons]
  constructor
  · rintro ⟨h1, h2, h3, h4, h5⟩
    exact ⟨h1.symm, h2.symm, h3.symm, h4.symm, h5.symm⟩
  · rintro ⟨h1, h2, h3, h4, h5⟩
    exact ⟨h1.symm, h2.symm, h3.symm, h4.symm, h5.symm⟩

/-- If the case-insensitive search finds `where` in the remaining text and the
customer id is `$`-free, the global replace leaves at least one intact copy of
the replacement text in the output. -/
theorem whereRepl_infix_replaceWhereGo (cid orig : List ℕ)
    (hcid : (36 : ℕ) ∉ cid) :
    ∀ (rem : List ℕ) (i : ℕ), strB "where" <:+: rem.map lowerB →
      whereRepl cid <:+: replaceWhereGo cid orig rem i := by
  intro rem i
  induction rem, i using replaceWhereGo.induct cid orig with
  | case1 a b c d e rest i hcond =>
    intro _
    rw [replaceWhereGo]
    simp only [hcond, if_pos]
    rw [jsSubstitution_no_dollar _ _ _ _ (no_dollar_whereRepl cid hcid)]
    exact ⟨[], replaceWhereGo cid orig rest (i + 5), by simp⟩
  | case2 a b c d e rest i hcond ih =>
    intro h
    rw [replaceWhereGo]
    simp only [hcond, if_neg, not_false_iff, reduceIte]
    have htail : strB "where" <:+: (b :: c :: d :: e :: rest).map lowerB := by
      rcases List.infix_cons_iff.mp (by simpa using h) with hp | hi
      · exact absurd ((where_prefix_five a b c d e rest).mp (by simpa using hp)) hcond
      · exact hi
    exact List.infix_cons_iff.mpr (Or.inr (ih htail))
  | case3 a rest i ih =>
    intro h
    exfalso
    have hlen := h.length_le
    have h5 : (strB "where").length = 5 := by decide
    rw [h5] at hlen
    simp at hlen
    rcases rest with _ | ⟨b, _ | ⟨c2, _ | ⟨d2, _ | ⟨e2, rest1⟩⟩⟩⟩
    · simp at hlen
    · simp at hlen
    · simp at hlen
    · simp at hlen
    · exact ih b c2 d2 e2 rest1 rfl
  | case4 i =>
    intro h
    exfalso
    have hlen := h.length_le
    have h5 : (strB "where").length = 5 := by decide
    rw [h5] at hlen
    simp at hlen

/-- `FROM` is a prefix of the upper-cased view exactly when `from` is a prefix
of the lower-cased view. -/
theorem from_upper_lower (x : List ℕ) :
    (strB "FROM").isPrefixOf (x.map upperB) = true ↔
      (strB "from").isPrefixOf (x.map lowerB) = true := by
  have hF : strB "FROM" = [70, 82, 79, 77] := by decide
  have hf : strB "from" = [102, 114, 111, 109] := by decide
  rw [hF, hf, List.isPrefixOf_iff_prefix, List.isPrefixOf_iff_prefix]
  rcases x with _ | ⟨a, _ | ⟨b, _ | ⟨c, _ | ⟨d, rest⟩⟩⟩⟩ <;>
    simp [List.cons_prefix_cons, upperB, lowerB]
  constructor <;> intro h <;> split_ifs at h ⊢ <;> omega

/-- If the lower-cased SQL contains `from`, `indexOf('FROM')` on the
upper-cased SQL succeeds. -/
theorem indexOfFrom_isSome (sql : List ℕ)
    (h : containsSubB (strB "from") (sql.map lowerB) = true) :
    ∃ i, indexOfFromB sql = some i := by
  simp only [containsSubB, List.any_eq_true, List.mem_range] at h
  obtain ⟨i, hi, hpre⟩ := h
  have hup : (strB "FROM").isPrefixOf ((sql.map upperB).drop i) = true := by
    rw [← List.map_drop] at hpre ⊢
    exact (from_upper_lower _).mpr hpre
  rcases hfind : indexOfFromB sql with _ | j
  · exfalso
    rw [indexOfFromB] at hfind
    have hmem : i ∈ List.range (sql.length + 1) := by
      simp only [List.mem_range]
      simpa using hi
    exact List.find?_eq_none.mp hfind i hmem hup
  · exact ⟨j, rfl⟩

/-- C5 counterexample: for a customer id containing `$` the claim fails on the
program: with `customerId = "7$"` the replacement template ends in `$' AND`,
whose `$'` expands (per `GetSubstitution`) to the text after the match, so for
the candidate SQL `select * where x=1` — which contains the keyword `where` —
the final SQL passed to `executeQuery` is
`select * WHERE customer_id = '7 x=1 AND x=1` and does not contain
`customer_id = '7$'`, case-insensitively or otherwise. -/
theorem chatQuery_filter_dropped_on_dollar_cid :
    containsSubB (strB "where") ((strB "select * where x=1").map lowerB) = true
    ∧ buildFinalSqlB (strB "7$") (strB "select * where x=1")
        = strB "select * WHERE customer_id = '7 x=1 AND x=1"
    ∧ containsSubB ((sqlNeedle (strB "7$")).map lowerB)
        ((buildFinalSqlB (strB "7$") (strB "select * where x=1")).map lowerB) = false :=
  ⟨by decide, by decide, by decide⟩

/-- C5 (amended): for every customer id that does not contain the character
`$` and every candidate SQL containing the keyword `WHERE` or the keyword
`FROM` case-insensitively, the final SQL computed by `chatQuery` contains,
case-insensitively, the substring `customer_id = '<customerId>'`: the filter
is either already present, injected into each existing `WHERE` clause, or
appended as a new `WHERE` clause after `FROM`.  (For ids containing `$`,
JavaScript's `$`-substitution in `String.replace` can corrupt the injected
text — see the counterexample above.) -/
theorem chatQuery_final_sql_filters_customer (cid sql : List ℕ)
    (hcid : (36 : ℕ) ∉ cid)
    (h : containsSubB (strB "where") (sql.map lowerB) = true
       ∨ containsSubB (strB "from") (sql.map lowerB) = true) :
    containsSubB ((sqlNeedle cid).map lowerB)
      ((buildFinalSqlB cid sql).map lowerB) = true := by
  rw [containsSubB_infix_iff]
  unfold buildFinalSqlB
  split
  · next hn =>
    have hinf : sqlNeedle cid <:+: sql.map lowerB := (containsSubB_infix_iff _ _).mp hn
    have hm := hinf.map lowerB
    rwa [map_lowerB_map_lowerB] at hm
  · next hn =>
    split
    · next hw =>
      have h1 : whereRepl cid <:+: replaceWhereB cid sql :=
        whereRepl_infix_replaceWhereGo cid sql hcid sql 0
          ((containsSubB_infix_iff _ _).mp hw)
      have h2 : sqlNeedle cid <:+: whereRepl cid :=
        ⟨strB "WHERE ", strB " AND", (whereRepl_eq cid).symm⟩
      exact (h2.trans h1).map lowerB
    · next hw =>
      have hfrom : containsSubB (strB "from") (sql.map lowerB) = true := by
        rcases h with h | h
        · exact absurd h hw
        · exact h
      obtain ⟨i, hidx⟩ := indexOfFrom_isSome sql hfrom
      rw [hidx]
      have hlit : strB " WHERE customer_id = '" = strB " WHERE " ++ strB "customer_id = '" := by
        decide
      have hsplit :
          sql.take i ++ strB " " ++ sql.drop i ++ strB " WHERE customer_id = '" ++ cid ++ strB "'"
            = (sql.take i ++ strB " " ++ sql.drop i ++ strB " WHERE ") ++ sqlNeedle cid ++ [] := by
        simp [sqlNeedle, hlit]
      have h3 : sqlNeedle cid <:+:
          (sql.take i ++ strB " " ++ sql.drop i ++ strB " WHERE customer_id = '"
            ++ cid ++ strB "'") := ⟨_, _, hsplit.symm⟩
      exact h3.map lowerB

/-- Witness for C5 (amended) at a `$`-free customer id and a concrete
candidate SQL containing `FROM`. -/
theorem chatQuery_final_sql_filters_customer_witness :
    (36 : ℕ) ∉ strB "9"
    ∧ (containsSubB (strB "where") ((strB "SELECT a FROM t").map lowerB) = true
       ∨ containsSubB (strB "from") ((strB "SELECT a FROM t").map lowerB) = true)
    ∧ containsSubB ((sqlNeedle (strB "9")).map lowerB)
        ((buildFinalSqlB (strB "9") (strB "SELECT a FROM t")).map lowerB) = true :=
  ⟨by decide, Or.inr (by decide),
    chatQuery_final_sql_filters_customer (strB "9") (strB "SELECT a FROM t")
      (by decide) (Or.inr (by decide))⟩

/-! ## SQL issued by `BiuAgentWrenQueryService` (`biuAgentWrenQueryService.ts`)

Each query method builds a SQL template string, interpolating the
single-quote-escaped customer id (or search term, or clamped limit).  The
SQLite backend (`BiuAgentSqliteService.getCustomerDatabase`) opens every
customer database with `{ readonly: true }`.
-/

/-- `customerId.replace(/'/g, "''")` (single quotes doubled). -/
def escapeSqlQuotes (s : String) : String :=
  ⟨s.data.foldr (fun c acc => if c.toNat = 39 then c :: c :: acc else c :: acc) []⟩

/-- `.replace(/%/g, '\\%')`. -/
def escapePercent (s : String) : String :=
  ⟨s.data.foldr (fun c acc => if c.toNat = 37 then Char.ofNat 92 :: c :: acc else c :: acc) []⟩

/-- `.replace(/_/g, '\\_')`. -/
def escapeUnderscore (s : String) : String :=
  ⟨s.data.foldr (fun c acc => if c.toNat = 95 then Char.ofNat 92 :: c :: acc else c :: acc) []⟩

/-- The escaped search term of `searchCustomers`. -/
def escapedSearchTermOf (s : String) : String :=
  escapeUnderscore (escapePercent (escapeSqlQuotes s))

/-- A SQL string whose first non-whitespace characters are `SELECT`. -/
def isSelectB (l : List ℕ) : Bool :=
  (strB "SELECT").isPrefixOf (l.dropWhile isWsB)

/-- `isSelectB` on a Lean string. -/
def isSelectStr (s : String) : Bool := isSelectB (strB s)

/-- The SQL of `getCustomerProfile` (service lines 95-112). -/
def getCustomerProfileSql (customerId : String) : String :=
  "\n      SELECT \n        customer_id as \"customerId\",\n        customer_name as \"customerName\",\n        segment,\n        risk_profile as \"riskProfile\",\n        cibil_score as \"cibilScore\",\n        rm_name as \"rmName\",\n        rm_code as \"rmCode\",\n        branch_name as \"branchName\",\n        location,\n        phone,\n        pan_number as \"panNumber\",\n        customer_since as \"customerSince\"\n      FROM customers\n      WHERE customer_id = '"
    ++ escapeSqlQuotes customerId ++ "'\n      LIMIT 1\n    "

/-- The SQL of `getFinancialSummary` (service lines 122-134). -/
def getFinancialSummarySql (customerId : String) : String :=
  "\n      SELECT \n        COALESCE(SUM(CASE WHEN account_type IN ('Savings', 'Current') THEN balance ELSE 0 END), 0) as \"totalCasaBalance\",\n        COALESCE(SUM(CASE WHEN account_type = 'FD' THEN balance ELSE 0 END), 0) as \"totalFdValue\",\n        COALESCE(SUM(CASE WHEN account_type = 'RD' THEN balance ELSE 0 END), 0) as \"totalRdValue\",\n        COALESCE(SUM(investment_value), 0) as \"totalInvestmentValue\",\n        COALESCE(SUM(credit_limit), 0) as \"totalCreditLimit\",\n        COALESCE(SUM(credit_outstanding), 0) as \"totalCreditOutstanding\",\n        COALESCE(SUM(loan_outstanding), 0) as \"totalLoanOutstanding\",\n        COUNT(DISTINCT account_id) as \"accountCount\"\n      FROM accounts\n      WHERE customer_id = '"
    ++ escapeSqlQuotes customerId ++ "'\n    "

/-- The clamp `Math.min(Math.max(1, limit), 100)` of `getRecentActivity`
(service line 143). -/
def recentActivitySafeLimit (limit : ℤ) : ℤ := min (max 1 limit) 100

/-- The SQL of `getRecentActivity` (service lines 144-155). -/
def getRecentActivitySql (customerId : String) (limit : ℤ) : String :=
  "\n      SELECT \n        transaction_date as \"transactionDate\",\n        activity_type as \"activityType\",\n        amount,\n        status,\n        description\n      FROM transactions\n      WHERE customer_id = '"
    ++ escapeSqlQuotes customerId
    ++ "'\n      ORDER BY transaction_date DESC\n      LIMIT "
    ++ toString (recentActivitySafeLimit limit) ++ "\n    "

/-- The SQL of `getAccountOverview` (service lines 164-173). -/
def getAccountOverviewSql (customerId : String) : String :=
  "\n      SELECT \n        account_type as \"accountType\",\n        account_number as \"accountNumber\",\n        balance,\n        status\n      FROM accounts\n      WHERE customer_id = '"
    ++ escapeSqlQuotes customerId ++ "'\n      ORDER BY account_type\n    "

/-- The SQL of `getProductHoldings` (service lines 182-190). -/
def getProductHoldingsSql (customerId : String) : String :=
  "\n      SELECT \n        product_type as \"productType\",\n        product_name as \"productName\",\n        status,\n        opened_date as \"openedDate\"\n      FROM products\n      WHERE customer_id = '"
    ++ escapeSqlQuotes customerId ++ "'\n    "

/-- The SQL of `getCreditCardSummary` (service lines 199-211). -/
def getCreditCardSummarySql (customerId : String) : String :=
  "\n      SELECT \n        card_name as \"cardName\",\n        credit_limit as \"creditLimit\",\n        available_limit as \"availableLimit\",\n        outstanding_amount as \"outstandingAmount\",\n        amount_due as \"amountDue\",\n        reward_points as \"rewardPoints\",\n        last_billed_amount as \"lastBilledAmount\",\n        utilization_percentage as \"utilizationPercentage\"\n      FROM credit_cards\n      WHERE customer_id = '"
    ++ escapeSqlQuotes customerId ++ "'\n    "

/-- The SQL of `getInvestmentData` (service lines 220-229). -/
def getInvestmentDataSql (customerId : String) : String :=
  "\n      SELECT \n        investment_type as \"investmentType\",\n        category,\n        value,\n        maturity_date as \"maturityDate\"\n      FROM investments\n      WHERE customer_id = '"
    ++ escapeSqlQuotes customerId ++ "'\n    "

/-- The SQL of `searchCustomers` (service lines 240-253). -/
def searchCustomersSql (searchTerm : String) : String :=
  "\n      SELECT \n        customer_id as \"customerId\",\n        customer_name as \"customerName\",\n        segment,\n        location,\n        phone\n      FROM customers\n      WHERE \n        customer_id ILIKE '%"
    ++ escapedSearchTermOf searchTerm
    ++ "%' OR\n        customer_name ILIKE '%"
    ++ escapedSearchTermOf searchTerm
    ++ "%' OR\n        phone ILIKE '%"
    ++ escapedSearchTermOf searchTerm
    ++ "%'\n      LIMIT 50\n    "

/-- The SQL of `getAllCustomerIds` (service lines 261-265). -/
def getAllCustomerIdsSql : String :=
  "\n      SELECT DISTINCT customer_id as \"customerId\"\n      FROM customers\n      ORDER BY customer_id\n    "

/-- The options `BiuAgentSqliteService.getCustomerDatabase` passes to
`new Database(dbPath, { readonly: true })` (`part_001` line 126). -/
structure SqliteOpenOptions where
  readonly : Bool
deriving DecidableEq

/-- The concrete options used by the SQLite backend. -/
def biuSqliteOpenOptions : SqliteOpenOptions := { readonly := true }

theorem strB_append (a b : String) : strB (a ++ b) = strB a ++ strB b := by
  simp [strB, String.data_append]

/-- A string made of a constant prefix whose first non-whitespace run starts
with `SELECT`, followed by anything, is a SELECT statement. -/
theorem isSelectB_append_of (a rest : List ℕ)
    (h : (strB "SELECT").isPrefixOf (a.dropWhile isWsB) = true) :
    isSelectB (a ++ rest) = true := by
  unfold isSelectB
  rw [List.dropWhile_append]
  rw [List.isPrefixOf_iff_prefix] at h
  have hne : (a.dropWhile isWsB).isEmpty = false := by
    rcases hdw : a.dropWhile isWsB with _ | ⟨x, xs⟩
    · rw [hdw] at h
      rw [List.prefix_nil] at h
      exact absurd h (by decide)
    · simp
  rw [hne]
  simp only [Bool.false_eq_true, reduceIte]
  rw [List.isPrefixOf_iff_prefix]
  exact h.trans (List.prefix_append _ _)

/-- C4 (amended): every SQL string constructed by `BiuAgentWrenQueryService`'s
own query methods is a SELECT statement, for every customer id, search term and
limit, and the SQLite backend opens customer databases in readonly mode;
`chatQuery`, however, forwards the asking service's candidate SQL (with only
the customer filter injected), which need not be a SELECT. -/
theorem query_service_sql_is_select :
    (∀ cid : String, isSelectStr (getCustomerProfileSql cid) = true)
    ∧ (∀ cid : String, isSelectStr (getFinancialSummarySql cid) = true)
    ∧ (∀ (cid : String) (limit : ℤ), isSelectStr (getRecentActivitySql cid limit) = true)
    ∧ (∀ cid : String, isSelectStr (getAccountOverviewSql cid) = true)
    ∧ (∀ cid : String, isSelectStr (getProductHoldingsSql cid) = true)
    ∧ (∀ cid : String, isSelectStr (getCreditCardSummarySql cid) = true)
    ∧ (∀ cid : String, isSelectStr (getInvestmentDataSql cid) = true)
    ∧ (∀ term : String, isSelectStr (searchCustomersSql term) = true)
    ∧ isSelectStr getAllCustomerIdsSql = true
    ∧ biuSqliteOpenOptions.readonly = true := by
  refine ⟨?_, ?_, ?_, ?_, ?_, ?_, ?_, ?_, by decide, rfl⟩
  · intro cid
    unfold isSelectStr getCustomerProfileSql
    simp only [strB_append, List.append_assoc]
    exact isSelectB_append_of _ _ (by decide)
  · intro cid
    unfold isSelectStr getFinancialSummarySql
    simp only [strB_append, List.append_assoc]
    exact isSelectB_append_of _ _ (by decide)
  · intro cid limit
    unfold isSelectStr getRecentActivitySql
    simp only [strB_append, List.append_assoc]
    exact isSelectB_append_of _ _ (by decide)
  · intro cid
    unfold isSelectStr getAccountOverviewSql
    simp only [strB_append, List.append_assoc]
    exact isSelectB_append_of _ _ (by decide)
  · intro cid
    unfold isSelectStr getProductHoldingsSql
    simp only [strB_append, List.append_assoc]
    exact isSelectB_append_of _ _ (by decide)
  · intro cid
    unfold isSelectStr getCreditCardSummarySql
    simp only [strB_append, List.append_assoc]
    exact isSelectB_append_of _ _ (by decide)
  · intro cid
    unfold isSelectStr getInvestmentDataSql
    simp only [strB_append, List.append_assoc]
    exact isSelectB_append_of _ _ (by decide)
  · intro term
    unfold isSelectStr searchCustomersSql
    simp only [strB_append, List.append_assoc]
    exact isSelectB_append_of _ _ (by decide)

/-! ## The recent-activity limit (resolver lines 165-183, service lines 141-157)

The resolver destructures `limit = 10` (default applies when the argument is
absent) and passes `Math.min(limit, 100)` to the service; the service clamps
its argument to `[1, 100]` and embeds the result in the SQL `LIMIT` clause
(`recentActivitySafeLimit` above, used by `getRecentActivitySql`). -/

/-- The value the resolver passes to the service:
`Math.min(limit = 10, 100)`. -/
def recentActivityRequestedLimit (limit : Option ℤ) : ℤ :=
  min (limit.getD 10) 100

/-- The `LIMIT` value embedded in the SQL issued by `getRecentActivity` when
called through the resolver. -/
def recentActivityEmbeddedLimit (limit : Option ℤ) : ℤ :=
  recentActivitySafeLimit (recentActivityRequestedLimit limit)

/-- C10: for every integer limit argument (including absent, zero, negative,
or larger than 100) the `LIMIT` value embedded in the SQL issued by
`getRecentActivity` is between 1 and 100 inclusive, defaulting to 10 when no
limit is given; the resolver caps the requested limit at 100 before calling
the service. -/
theorem recent_activity_limit_clamped (limit : Option ℤ) :
    1 ≤ recentActivityEmbeddedLimit limit
    ∧ recentActivityEmbeddedLimit limit ≤ 100
    ∧ (limit = none → recentActivityEmbeddedLimit limit = 10)
    ∧ recentActivityRequestedLimit limit ≤ 100 := by
  unfold recentActivityEmbeddedLimit recentActivityRequestedLimit
    recentActivitySafeLimit
  refine ⟨?_, ?_, ?_, ?_⟩
  · cases limit <;> simp
  · cases limit <;> simp
  · rintro rfl; simp
  · cases limit <;> simp

/-- Witness for C10 at an absent limit and at an oversized limit. -/
theorem recent_activity_limit_clamped_witness :
    recentActivityEmbeddedLimit none = 10
    ∧ 1 ≤ recentActivityEmbeddedLimit (some 1000)
    ∧ recentActivityEmbeddedLimit (some 1000) ≤ 100
    ∧ 1 ≤ recentActivityEmbeddedLimit (some (-5))
    ∧ recentActivityEmbeddedLimit (some (-5)) ≤ 100 :=
  ⟨(recent_activity_limit_clamped none).2.2.1 rfl,
   (recent_activity_limit_clamped (some 1000)).1,
   (recent_activity_limit_clamped (some 1000)).2.1,
   (recent_activity_limit_clamped (some (-5))).1,
   (recent_activity_limit_clamped (some (-5))).2.1⟩

/-! ## `executeQuery` result reshaping (`biuAgentWrenQueryService.ts` lines 26-76)

`executeQuery` forwards the SQL and limit to the host `QueryService.preview`;
if the result has the `columns`/`data` shape it builds one object per data row
assigning each column name the row entry at the column's index (an absent
entry, `row[index]` past the row's end, becomes `undefined`, modelled as
`none`); otherwise it returns the empty list. -/

/-- A preview result: either the `columns`/`data` shape, or anything else. -/
inductive PreviewOut (α : Type) where
  | shaped (columns : List String) (data : List (List α))
  | unshaped
deriving DecidableEq

/-- The row-reshaping `data.map(row => { columns.forEach((col, index) =>
obj[col] = row[index]) })` of `executeQuery`. -/
def executeQueryRows {α : Type} : PreviewOut α → List (List (String × Option α))
  | .shaped columns data =>
      data.map (fun row => columns.enum.map (fun ic => (ic.2, row.get? ic.1)))
  | .unshaped => []

/-- The observable behaviour of one `executeQuery` call: the limit passed to
`QueryService.preview` and the reshaped rows. -/
structure ExecResult (α : Type) where
  issuedLimit : ℕ
  rows : List (List (String × Option α))

/-- `executeQuery(sql, limit)` against a host preview service. -/
def executeQueryModel {α : Type} (preview : String → ℕ → PreviewOut α)
    (sql : String) (limit : ℕ) : ExecResult α :=
  { issuedLimit := limit, rows := executeQueryRows (preview sql limit) }

/-- Indices in `enumFrom n l` are at least `n`. -/
theorem fst_le_of_mem_enumFrom {α : Type} :
    ∀ (n : ℕ) (l : List α), ∀ x ∈ List.enumFrom n l, n ≤ x.1 := by
  intro n l
  induction l generalizing n with
  | nil => intro x hx; simp at hx
  | cons a t ih =>
    intro x hx
    rw [List.enumFrom_cons] at hx
    rcases List.mem_cons.mp hx with rfl | hx2
    · exact le_refl n
    · exact (Nat.le_succ n).trans (ih (n + 1) x hx2)

/-- The index-based row reshaping agrees with zipping columns against the row
when the row has one entry per column. -/
theorem enumFrom_get?_zip {α : Type} :
    ∀ (k : ℕ) (cols : List String) (row : List α), row.length = cols.length →
      (List.enumFrom k cols).map (fun ic => (ic.2, row.get? (ic.1 - k)))
        = cols.zip (row.map some) := by
  intro k cols
  induction cols generalizing k with
  | nil =>
    intro row hrow
    simp at hrow
    simp [hrow]
  | cons c cs ih =>
    intro row hrow
    rcases row with _ | ⟨r, rs⟩
    · simp at hrow
    · rw [List.enumFrom_cons, List.map_cons, List.map_cons, List.zip_cons_cons]
      simp only [Nat.sub_self, List.get?_cons_zero]
      congr 1
      have hcongr : (List.enumFrom (k + 1) cs).map
            (fun ic => (ic.2, (r :: rs).get? (ic.1 - k)))
          = (List.enumFrom (k + 1) cs).map (fun ic => (ic.2, rs.get? (ic.1 - (k + 1)))) := by
        apply List.map_congr_left
        intro x hx
        have hk : k + 1 ≤ x.1 := fst_le_of_mem_enumFrom (k + 1) cs x hx
        have : x.1 - k = (x.1 - (k + 1)) + 1 := by omega
        rw [this, List.get?_cons_succ]
      rw [hcongr, ih (k + 1) rs (by simpa using hrow)]

/-- C6: `executeQuery` reshapes the preview result into response objects: for a
`columns`/`data`-shaped result it returns one object per row in which the field
named by the i-th column holds the row's i-th entry; for any other result it
returns the empty list; and the given limit is forwarded unchanged to the
query service's `preview` call. -/
theorem executeQuery_reshapes {α : Type} (preview : String → ℕ → PreviewOut α)
    (sql : String) (limit : ℕ) :
    (executeQueryModel preview sql limit).issuedLimit = limit
    ∧ (∀ cols data, preview sql limit = PreviewOut.shaped cols data →
        (executeQueryModel preview sql limit).rows
          = data.map (fun row => cols.enum.map (fun ic => (ic.2, row.get? ic.1)))
        ∧ ∀ row ∈ data, row.length = cols.length →
            cols.enum.map (fun ic => (ic.2, row.get? ic.1)) = cols.zip (row.map some))
    ∧ (preview sql limit = PreviewOut.unshaped →
        (executeQueryModel preview sql limit).rows = []) := by
  refine ⟨rfl, ?_, ?_⟩
  · intro cols data hshape
    constructor
    · simp [executeQueryModel, executeQueryRows, hshape]
    · intro row _ hrow
      have h := enumFrom_get?_zip 0 cols row hrow
      simpa [List.enum] using h
  · intro hun
    simp [executeQueryModel, executeQueryRows, hun]

/-- Witness for C6 at a concrete shaped preview result. -/
theorem executeQuery_reshapes_witness :
    (executeQueryModel (fun _ _ => PreviewOut.shaped ["a", "b"] [[(1 : ℤ), 2]])
        "SELECT 1" 7).issuedLimit = 7
    ∧ ["a", "b"].enum.map
          (fun ic => (ic.2, ([(1 : ℤ), 2]).get? ic.1))
        = ["a", "b"].zip ([(1 : ℤ), 2].map some) :=
  ⟨(executeQuery_reshapes (fun _ _ => PreviewOut.shaped ["a", "b"] [[(1 : ℤ), 2]])
      "SELECT 1" 7).1,
   (((executeQuery_reshapes (fun _ _ => PreviewOut.shaped ["a", "b"] [[(1 : ℤ), 2]])
      "SELECT 1" 7).2.1) ["a", "b"] [[(1 : ℤ), 2]] rfl).2 [(1 : ℤ), 2] (by simp) (by simp)⟩

/-! ## The CSV backend's account overview (`biuAgentCsvService.ts` lines 339-351)

`getAccountOverview` filters the parsed `RL_ACCT_BASE_AI.csv` rows by
`String(row.COD_CUST) === String(customerId)` and maps each matching row to an
`Account` record, preserving file order. -/

/-- A cell of a parsed CSV row as stored by `parseCsv`: a string or a number. -/
inductive JsCsvVal where
  | s (v : String)
  | n (v : ℤ)
deriving DecidableEq

/-- JS `String(value)` on a parsed CSV cell (integers print in decimal). -/
def jsStringOf : JsCsvVal → String
  | .s v => v
  | .n v => toString v

/-- JS `String(value || '')` on a parsed CSV cell: falsy values (empty string,
zero) become the empty string. -/
def jsStringOrEmpty : JsCsvVal → String
  | .s v => v
  | .n v => if v = 0 then "" else toString v

/-- JS `Number(value || 0)` on a parsed CSV cell.  The account rows' numeric
columns hold numbers after parsing; a non-numeric string (NaN in JS) is
modelled as 0. -/
def jsNumOf : JsCsvVal → ℤ
  | .n v => v
  | .s _ => 0

/-- A row of `RL_ACCT_BASE_AI.csv` restricted to the columns
`getAccountOverview` reads. -/
structure AcctCsvRow where
  COD_CUST : JsCsvVal
  PRODUCT_TYPE : JsCsvVal
  COD_ACCT_NO : JsCsvVal
  EOP : JsCsvVal
  SYSTEM_FLAG : JsCsvVal
deriving DecidableEq

/-- The GraphQL `Account` shape. -/
structure Account where
  accountType : String
  accountNumber : String
  balance : ℤ
  status : String
deriving DecidableEq

/-- The per-row mapping of `getAccountOverview`. -/
def toAccount (row : AcctCsvRow) : Account :=
  { accountType := jsStringOrEmpty row.PRODUCT_TYPE
    accountNumber := jsStringOrEmpty row.COD_ACCT_NO
    balance := jsNumOf row.EOP
    status := if jsNumOf row.SYSTEM_FLAG = 0 then "Active" else "Inactive" }

/-- `BiuAgentCsvService.getAccountOverview` over the parsed account rows. -/
def csvGetAccountOverview (rows : List AcctCsvRow) (cid : String) : List Account :=
  (rows.filter (fun row => jsStringOf row.COD_CUST = cid)).map toAccount

/-- C8: query results are scoped to the requested customer: `getAccountOverview`
of the CSV backend returns exactly one `Account` per row of
`RL_ACCT_BASE_AI.csv` whose `COD_CUST` equals the customer id under string
comparison, in file order, and every returned `Account` is derived from such a
matching row. -/
theorem csv_account_overview_scoped (rows : List AcctCsvRow) (cid : String) :
    csvGetAccountOverview rows cid
      = (rows.filter (fun row => jsStringOf row.COD_CUST = cid)).map toAccount
    ∧ (csvGetAccountOverview rows cid).length
        = (rows.filter (fun row => jsStringOf row.COD_CUST = cid)).length
    ∧ ∀ a ∈ csvGetAccountOverview rows cid,
        ∃ row ∈ rows, jsStringOf row.COD_CUST = cid ∧ a = toAccount row := by
  refine ⟨rfl, by simp [csvGetAccountOverview], ?_⟩
  intro a ha
  simp only [csvGetAccountOverview, List.mem_map, List.mem_filter] at ha
  obtain ⟨row, ⟨hrow, hcid⟩, rfl⟩ := ha
  exact ⟨row, hrow, by simpa using hcid, rfl⟩

/-- Witness for C8 on a two-customer file: the single account returned for
customer `1` is derived from that customer's row. -/
theorem csv_account_overview_scoped_witness :
    ∃ row ∈ [AcctCsvRow.mk (.s "1") (.s "Savings") (.s "ACC1") (.n 100) (.n 0),
             AcctCsvRow.mk (.s "2") (.s "Current") (.s "ACC2") (.n 50) (.n 1)],
      jsStringOf row.COD_CUST = "1"
      ∧ toAccount (AcctCsvRow.mk (.s "1") (.s "Savings") (.s "ACC1") (.n 100) (.n 0))
          = toAccount row :=
  (csv_account_overview_scoped
      [AcctCsvRow.mk (.s "1") (.s "Savings") (.s "ACC1") (.n 100) (.n 0),
       AcctCsvRow.mk (.s "2") (.s "Current") (.s "ACC2") (.n 50) (.n 1)] "1").2.2
    (toAccount (AcctCsvRow.mk (.s "1") (.s "Savings") (.s "ACC1") (.n 100) (.n 0)))
    (by decide)

/-! ## The three data-access backends' financial summaries (C3)

A customer dataset "represented consistently in all three backends" is
modelled as one abstract `Dataset` of account, credit-card, loan and
product-holding rows; each backend function below consumes the same dataset
through its own logic, translated from the source:

* `csvFinancialSummary` — `BiuAgentCsvService.getFinancialSummary`
  (lines 240-312): upper-cases the account `PRODUCT_TYPE`, buckets
  `SAVINGS`/`CURRENT`/`SALARY` into CASA, `FD`/`TD` into FD and `RD` into RD
  (counting only those rows), sums card `CRLIM`/`CURBAL`, sums positive
  holding `CE_ASSET_COUNT || CV_ASSET_COUNT` values, and reports
  `totalLoanOutstanding = 0`.
* `wrenFinancialSummary` — the SQL of
  `BiuAgentWrenQueryService.getFinancialSummary` (lines 119-136): exact-case
  `account_type IN ('Savings','Current')`, `'FD'`, `'RD'`, sums of the
  per-account `investment_value`/`credit_limit`/`credit_outstanding`/
  `loan_outstanding` columns, `COUNT(DISTINCT account_id)` over all rows.
* `sqliteFinancialSummary` — the SQL of
  `BiuAgentSqliteService.getFinancialSummary` (`part_001` lines 233-266):
  a union of accounts, credit cards and loans with
  `COUNT(DISTINCT account_id)` over the union, investment from
  `'Investment'`/`'Demat'` account balances.
-/

/-- An abstract account row carrying every column some backend reads. -/
structure AcctRow where
  accountId : String
  custId : String
  acctType : String
  balance : ℤ
  investmentValue : ℤ
  creditLimit : ℤ
  creditOutstanding : ℤ
  loanOutstanding : ℤ
deriving DecidableEq

/-- An abstract credit-card row (`CRLIM`/`CURBAL` in the CSV,
`credit_limit`/`outstanding_amount` in SQLite). -/
structure CardRow where
  cardId : String
  custId : String
  creditLimit : ℤ
  curBal : ℤ
deriving DecidableEq

/-- An abstract loan row (SQLite backend only). -/
structure LoanRow where
  loanId : String
  custId : String
  loanType : String
  outstanding : ℤ
deriving DecidableEq

/-- An abstract product-holding row (CSV backend only). -/
structure HoldingRow where
  custId : String
  ceAssetCount : ℤ
  cvAssetCount : ℤ
deriving DecidableEq

/-- A customer dataset shared by the three backends. -/
structure Dataset where
  accounts : List AcctRow
  cards : List CardRow
  loans : List LoanRow
  holdings : List HoldingRow

/-- The `FinancialSummary` record common to all three backends. -/
structure FinancialSummary where
  totalCasaBalance : ℤ
  totalFdValue : ℤ
  totalRdValue : ℤ
  totalInvestmentValue : ℤ
  totalCreditLimit : ℤ
  totalCreditOutstanding : ℤ
  totalLoanOutstanding : ℤ
  accountCount : ℕ
deriving DecidableEq

/-- The CSV backend's running totals over account rows. -/
structure CsvAcc where
  casa : ℤ
  fd : ℤ
  rd : ℤ
  count : ℕ
deriving DecidableEq

/-- `String.prototype.toUpperCase` (each character upper-cased). -/
def toUpperStr (s : String) : String := ⟨s.data.map Char.toUpper⟩

/-- One iteration of the CSV backend's account loop (source lines 266-284). -/
def csvAcctStep (s : CsvAcc) (a : AcctRow) : CsvAcc :=
  if toUpperStr a.acctType = "SAVINGS" ∨ toUpperStr a.acctType = "CURRENT"
      ∨ toUpperStr a.acctType = "SALARY" then
    { s with casa := s.casa + a.balance, count := s.count + 1 }
  else if toUpperStr a.acctType = "FD" ∨ toUpperStr a.acctType = "TD" then
    { s with fd := s.fd + a.balance, count := s.count + 1 }
  else if toUpperStr a.acctType = "RD" then
    { s with rd := s.rd + a.balance, count := s.count + 1 }
  else s

/-- `BiuAgentCsvService.getFinancialSummary`. -/
def csvFinancialSummary (ds : Dataset) (cid : String) : FinancialSummary :=
  let customerAccounts := ds.accounts.filter (fun r => r.custId = cid)
  let customerCards := ds.cards.filter (fun r => r.custId = cid)
  let customerProducts := ds.holdings.filter (fun r => r.custId = cid)
  let s := customerAccounts.foldl csvAcctStep ⟨0, 0, 0, 0⟩
  let credit := customerCards.foldl
    (fun p c => (p.1 + c.creditLimit, p.2 + c.curBal)) ((0 : ℤ), (0 : ℤ))
  let invest := customerProducts.foldl
    (fun t h =>
      let value := if h.ceAssetCount ≠ 0 then h.ceAssetCount else h.cvAssetCount
      if value > 0 then t + value else t) (0 : ℤ)
  { totalCasaBalance := s.casa
    totalFdValue := s.fd
    totalRdValue := s.rd
    totalInvestmentValue := invest
    totalCreditLimit := credit.1
    totalCreditOutstanding := credit.2
    totalLoanOutstanding := 0
    accountCount := s.count }

/-- `SUM(balance)` over `account_type IN ('Savings', 'Current')`. -/
def casaOf (rows : List AcctRow) : ℤ :=
  ((rows.filter (fun a => a.acctType = "Savings" ∨ a.acctType = "Current")).map
    (fun a => a.balance)).sum

/-- `SUM(balance)` over `account_type = 'FD'`. -/
def fdOf (rows : List AcctRow) : ℤ :=
  ((rows.filter (fun a => a.acctType = "FD")).map (fun a => a.balance)).sum

/-- `SUM(balance)` over `account_type = 'RD'`. -/
def rdOf (rows : List AcctRow) : ℤ :=
  ((rows.filter (fun a => a.acctType = "RD")).map (fun a => a.balance)).sum

/-- `BiuAgentWrenQueryService.getFinancialSummary`, reading the SQL's
aggregates over the customer's account rows. -/
def wrenFinancialSummary (ds : Dataset) (cid : String) : FinancialSummary :=
  let rows := ds.accounts.filter (fun r => r.custId = cid)
  { totalCasaBalance := casaOf rows
    totalFdValue := fdOf rows
    totalRdValue := rdOf rows
    totalInvestmentValue := (rows.map (fun a => a.investmentValue)).sum
    totalCreditLimit := (rows.map (fun a => a.creditLimit)).sum
    totalCreditOutstanding := (rows.map (fun a => a.creditOutstanding)).sum
    totalLoanOutstanding := (rows.map (fun a => a.loanOutstanding)).sum
    accountCount := ((rows.map (fun a => a.accountId)).dedup).length }

/-- A row of the SQLite query's inner `UNION ALL`. -/
structure CombinedRow where
  accountId : String
  accountType : String
  balance : ℤ
  creditLimit : ℤ
  creditOutstanding : ℤ
  loanOutstanding : ℤ
deriving DecidableEq

/-- `BiuAgentSqliteService.getFinancialSummary`, reading the SQL's aggregates
over the union of the customer's accounts, credit cards and loans. -/
def sqliteFinancialSummary (ds : Dataset) (cid : String) : FinancialSummary :=
  let acctRows := (ds.accounts.filter (fun r => r.custId = cid)).map
    (fun a => CombinedRow.mk a.accountId a.acctType a.balance 0 0 0)
  let cardRows := (ds.cards.filter (fun r => r.custId = cid)).map
    (fun c => CombinedRow.mk c.cardId "Credit Card" 0 c.creditLimit c.curBal 0)
  let loanRows := (ds.loans.filter (fun r => r.custId = cid)).map
    (fun l => CombinedRow.mk l.loanId l.loanType 0 0 0 l.outstanding)
  let combined := acctRows ++ cardRows ++ loanRows
  { totalCasaBalance := ((combined.filter (fun r => r.accountType = "Savings"
        ∨ r.accountType = "Current")).map (fun r => r.balance)).sum
    totalFdValue := ((combined.filter (fun r => r.accountType = "FD")).map
      (fun r => r.balance)).sum
    totalRdValue := ((combined.filter (fun r => r.accountType = "RD")).map
      (fun r => r.balance)).sum
    totalInvestmentValue := ((combined.filter (fun r => r.accountType = "Investment"
        ∨ r.accountType = "Demat")).map (fun r => r.balance)).sum
    totalCreditLimit := (combined.map (fun r => r.creditLimit)).sum
    totalCreditOutstanding := (combined.map (fun r => r.creditOutstanding)).sum
    totalLoanOutstanding := (combined.map (fun r => r.loanOutstanding)).sum
    accountCount := ((combined.map (fun r => r.accountId)).dedup).length }

/-- A dataset holding a single `Salary` account with balance 100. -/
def salaryDs : Dataset :=
  ⟨[⟨"A1", "1", "Salary", 100, 0, 0, 0, 0⟩], [], [], []⟩

/-- C3 counterexample: the backends are not mutually redundant — on a dataset
holding a single `Salary` account with balance 100, the CSV backend reports
`totalCasaBalance = 100` while the Wren project-connection SQL (whose CASA
bucket is `account_type IN ('Savings', 'Current')`) reports 0, so
`getFinancialSummary` differs between the backends. -/
theorem financial_summary_backends_differ :
    csvFinancialSummary salaryDs "1" ≠ wrenFinancialSummary salaryDs "1" := by
  decide

/-- On account rows whose types are the exact-case `Savings`/`Current`/`FD`/`RD`,
the CSV backend's loop computes the same bucket sums as the SQL aggregates and
counts every row. -/
theorem csvAcctFold_spec (l : List AcctRow)
    (h : ∀ a ∈ l, a.acctType = "Savings" ∨ a.acctType = "Current"
        ∨ a.acctType = "FD" ∨ a.acctType = "RD") :
    ∀ s0 : CsvAcc, l.foldl csvAcctStep s0 =
      ⟨s0.casa + casaOf l, s0.fd + fdOf l, s0.rd + rdOf l, s0.count + l.length⟩ := by
  induction l with
  | nil =>
    intro s0
    cases s0
    simp [casaOf, fdOf, rdOf]
  | cons a t ih =>
    intro s0
    have ha := h a (List.mem_cons_self a t)
    have ht : ∀ x ∈ t, x.acctType = "Savings" ∨ x.acctType = "Current"
        ∨ x.acctType = "FD" ∨ x.acctType = "RD" :=
      fun x hx => h x (List.mem_cons_of_mem a hx)
    rw [List.foldl_cons]
    rcases ha with ha | ha | ha | ha
    · have hstep : csvAcctStep s0 a =
          { s0 with casa := s0.casa + a.balance, count := s0.count + 1 } := by
        unfold csvAcctStep
        rw [ha]
        rw [if_pos (Or.inl (by decide))]
      rw [hstep, ih ht]
      have hc : casaOf (a :: t) = a.balance + casaOf t := by
        simp [casaOf, List.filter_cons, ha]
      have hf : fdOf (a :: t) = fdOf t := by
        simp [fdOf, List.filter_cons, ha]
      have hr : rdOf (a :: t) = rdOf t := by
        simp [rdOf, List.filter_cons, ha]
      rw [hc, hf, hr, List.length_cons, CsvAcc.mk.injEq]
      refine ⟨by ring, by ring, by ring, by ring⟩
    · have hstep : csvAcctStep s0 a =
          { s0 with casa := s0.casa + a.balance, count := s0.count + 1 } := by
        unfold csvAcctStep
        rw [ha]
        rw [if_pos (Or.inr (Or.inl (by decide)))]
      rw [hstep, ih ht]
      have hc : casaOf (a :: t) = a.balance + casaOf t := by
        simp [casaOf, List.filter_cons, ha]
      have hf : fdOf (a :: t) = fdOf t := by
        simp [fdOf, List.filter_cons, ha]
      have hr : rdOf (a :: t) = rdOf t := by
        simp [rdOf, List.filter_cons, ha]
      rw [hc, hf, hr, List.length_cons, CsvAcc.mk.injEq]
      refine ⟨by ring, by ring, by ring, by ring⟩
    · have hstep : csvAcctStep s0 a =
          { s0 with fd := s0.fd + a.balance, count := s0.count + 1 } := by
        unfold csvAcctStep
        rw [ha]
        rw [if_neg (by decide), if_pos (Or.inl (by decide))]
      rw [hstep, ih ht]
      have hc : casaOf (a :: t) = casaOf t := by
        simp [casaOf, List.filter_cons, ha]
      have hf : fdOf (a :: t) = a.balance + fdOf t := by
        simp [fdOf, List.filter_cons, ha]
      have hr : rdOf (a :: t) = rdOf t := by
        simp [rdOf, List.filter_cons, ha]
      rw [hc, hf, hr, List.length_cons, CsvAcc.mk.injEq]
      refine ⟨by ring, by ring, by ring, by ring⟩
    · have hstep : csvAcctStep s0 a =
          { s0 with rd := s0.rd + a.balance, count := s0.count + 1 } := by
        unfold csvAcctStep
        rw [ha]
        rw [if_neg (by decide), if_neg (by decide), if_pos (by decide)]
      rw [hstep, ih ht]
      have hc : casaOf (a :: t) = casaOf t := by
        simp [casaOf, List.filter_cons, ha]
      have hf : fdOf (a :: t) = fdOf t := by
        simp [fdOf, List.filter_cons, ha]
      have hr : rdOf (a :: t) = a.balance + rdOf t := by
        simp [rdOf, List.filter_cons, ha]
      rw [hc, hf, hr, List.length_cons, CsvAcc.mk.injEq]
      refine ⟨by ring, by ring, by ring, by ring⟩

/-- C3 (amended): the three backends agree only on restricted datasets: when
every account row's type is exactly one of `Savings`, `Current`, `FD`, `RD`,
its auxiliary columns (`investment_value`, `credit_limit`,
`credit_outstanding`, `loan_outstanding`) are zero, account ids are distinct,
and the dataset has no credit cards, loans, or product holdings, then
`getFinancialSummary` returns the same `FinancialSummary` record in all three
backends.  (In general they disagree: a `Salary` account's balance counts
toward CASA only in the CSV backend, loans are visible only to the SQLite
backend, and credit cards enter the account count only in the SQLite
backend.) -/
theorem financial_summary_backends_agree (ds : Dataset) (cid : String)
    (hAcct : ∀ a ∈ ds.accounts,
      (a.acctType = "Savings" ∨ a.acctType = "Current"
        ∨ a.acctType = "FD" ∨ a.acctType = "RD")
      ∧ a.investmentValue = 0 ∧ a.creditLimit = 0
      ∧ a.creditOutstanding = 0 ∧ a.loanOutstanding = 0)
    (hCards : ds.cards = []) (hLoans : ds.loans = []) (hHold : ds.holdings = [])
    (hIds : (ds.accounts.map (fun a => a.accountId)).Nodup) :
    csvFinancialSummary ds cid = wrenFinancialSummary ds cid
    ∧ wrenFinancialSummary ds cid = sqliteFinancialSummary ds cid := by
  have hrowsSub : (ds.accounts.filter (fun r => r.custId = cid)).Sublist ds.accounts :=
    List.filter_sublist _
  have hrowsMem : ∀ a ∈ ds.accounts.filter (fun r => r.custId = cid), a ∈ ds.accounts :=
    fun a ha => hrowsSub.subset ha
  have hTypes : ∀ a ∈ ds.accounts.filter (fun r => r.custId = cid),
      a.acctType = "Savings" ∨ a.acctType = "Current"
        ∨ a.acctType = "FD" ∨ a.acctType = "RD" :=
    fun a ha => (hAcct a (hrowsMem a ha)).1
  have hNodupRows :
      ((ds.accounts.filter (fun r => r.custId = cid)).map (fun a => a.accountId)).Nodup :=
    List.Nodup.sublist (hrowsSub.map (fun a => a.accountId)) hIds
  have hDedup :
      ((ds.accounts.filter (fun r => r.custId = cid)).map (fun a => a.accountId)).dedup
        = (ds.accounts.filter (fun r => r.custId = cid)).map (fun a => a.accountId) :=
    List.dedup_eq_self.mpr hNodupRows
  have hcsv : csvFinancialSummary ds cid =
      { totalCasaBalance := casaOf (ds.accounts.filter (fun r => r.custId = cid))
        totalFdValue := fdOf (ds.accounts.filter (fun r => r.custId = cid))
        totalRdValue := rdOf (ds.accounts.filter (fun r => r.custId = cid))
        totalInvestmentValue := 0
        totalCreditLimit := 0
        totalCreditOutstanding := 0
        totalLoanOutstanding := 0
        accountCount := (ds.accounts.filter (fun r => r.custId = cid)).length } := by
    unfold csvFinancialSummary
    simp only [hCards, hHold, List.filter_nil, List.foldl_nil]
    rw [csvAcctFold_spec (ds.accounts.filter (fun r => r.custId = cid)) hTypes ⟨0, 0, 0, 0⟩]
    simp
  have hwren : wrenFinancialSummary ds cid =
      { totalCasaBalance := casaOf (ds.accounts.filter (fun r => r.custId = cid))
        totalFdValue := fdOf (ds.accounts.filter (fun r => r.custId = cid))
        totalRdValue := rdOf (ds.accounts.filter (fun r => r.custId = cid))
        totalInvestmentValue := 0
        totalCreditLimit := 0
        totalCreditOutstanding := 0
        totalLoanOutstanding := 0
        accountCount := (ds.accounts.filter (fun r => r.custId = cid)).length } := by
    unfold wrenFinancialSummary
    rw [FinancialSummary.mk.injEq]
    refine ⟨rfl, rfl, rfl, ?_, ?_, ?_, ?_, ?_⟩
    · exact List.sum_eq_zero (by
        intro x hx
        obtain ⟨a, ha, rfl⟩ := List.mem_map.mp hx
        exact (hAcct a (hrowsMem a ha)).2.1)
    · exact List.sum_eq_zero (by
        intro x hx
        obtain ⟨a, ha, rfl⟩ := List.mem_map.mp hx
        exact (hAcct a (hrowsMem a ha)).2.2.1)
    · exact List.sum_eq_zero (by
        intro x hx
        obtain ⟨a, ha, rfl⟩ := List.mem_map.mp hx
        exact (hAcct a (hrowsMem a ha)).2.2.2.1)
    · exact List.sum_eq_zero (by
        intro x hx
        obtain ⟨a, ha, rfl⟩ := List.mem_map.mp hx
        exact (hAcct a (hrowsMem a ha)).2.2.2.2)
    · rw [hDedup, List.length_map]
  have hsqlite : sqliteFinancialSummary ds cid =
      { totalCasaBalance := casaOf (ds.accounts.filter (fun r => r.custId = cid))
        totalFdValue := fdOf (ds.accounts.filter (fun r => r.custId = cid))
        totalRdValue := rdOf (ds.accounts.filter (fun r => r.custId = cid))
        totalInvestmentValue := 0
        totalCreditLimit := 0
        totalCreditOutstanding := 0
        totalLoanOutstanding := 0
        accountCount := (ds.accounts.filter (fun r => r.custId = cid)).length } := by
    unfold sqliteFinancialSummary
    rw [hCards, hLoans]
    simp only [List.filter_nil, List.map_nil, List.append_nil]
    rw [FinancialSummary.mk.injEq]
    refine ⟨?_, ?_, ?_, ?_, ?_, ?_, ?_, ?_⟩
    · rw [List.filter_map, List.map_map]
      rfl
    · rw [List.filter_map, List.map_map]
      rfl
    · rw [List.filter_map, List.map_map]
      rfl
    · rw [List.filter_map]
      have hnil : (ds.accounts.filter (fun r => r.custId = cid)).filter
          ((fun r : CombinedRow => r.accountType = "Investment" ∨ r.accountType = "Demat")
            ∘ (fun a => CombinedRow.mk a.accountId a.acctType a.balance 0 0 0)) = [] := by
        rw [List.filter_eq_nil_iff]
        intro a ha
        rcases hTypes a ha with h | h | h | h <;> simp [Function.comp, h]
      rw [hnil]
      simp
    · rw [List.map_map]
      exact List.sum_eq_zero (by
        intro x hx
        obtain ⟨a, _, rfl⟩ := List.mem_map.mp hx
        rfl)
    · rw [List.map_map]
      exact List.sum_eq_zero (by
        intro x hx
        obtain ⟨a, _, rfl⟩ := List.mem_map.mp hx
        rfl)
    · rw [List.map_map]
      exact List.sum_eq_zero (by
        intro x hx
        obtain ⟨a, _, rfl⟩ := List.mem_map.mp hx
        rfl)
    · rw [List.map_map]
      have hmapid : (ds.accounts.filter (fun r => r.custId = cid)).map
          ((fun r : CombinedRow => r.accountId)
            ∘ (fun a => CombinedRow.mk a.accountId a.acctType a.balance 0 0 0))
          = (ds.accounts.filter (fun r => r.custId = cid)).map (fun a => a.accountId) := rfl
      rw [hmapid, hDedup, List.length_map]
  exact ⟨hcsv.trans hwren.symm, hwren.trans hsqlite.symm⟩

/-- Witness for C3 (amended) at a concrete restricted dataset. -/
theorem financial_summary_backends_agree_witness :
    csvFinancialSummary
        ⟨[⟨"A1", "1", "Savings", 5, 0, 0, 0, 0⟩, ⟨"A2", "1", "FD", 7, 0, 0, 0, 0⟩],
          [], [], []⟩ "1"
      = wrenFinancialSummary
        ⟨[⟨"A1", "1", "Savings", 5, 0, 0, 0, 0⟩, ⟨"A2", "1", "FD", 7, 0, 0, 0, 0⟩],
          [], [], []⟩ "1"
    ∧ wrenFinancialSummary
        ⟨[⟨"A1", "1", "Savings", 5, 0, 0, 0, 0⟩, ⟨"A2", "1", "FD", 7, 0, 0, 0, 0⟩],
          [], [], []⟩ "1"
      = sqliteFinancialSummary
        ⟨[⟨"A1", "1", "Savings", 5, 0, 0, 0, 0⟩, ⟨"A2", "1", "FD", 7, 0, 0, 0, 0⟩],
          [], [], []⟩ "1" :=
  financial_summary_backends_agree
    ⟨[⟨"A1", "1", "Savings", 5, 0, 0, 0, 0⟩, ⟨"A2", "1", "FD", 7, 0, 0, 0, 0⟩], [], [], []⟩
    "1" (by decide) rfl rfl rfl (by decide)

/-! ## The dashboard resolver (`biuAgentResolver.ts` lines 41-90)

`getCustomerDashboard` issues the seven single-purpose service queries for the
requested customer (recent activity with limit 10) via `Promise.all` and
returns a record of their results; if any of them rejects, the `catch` block
throws a `GraphQLError` with code `CUSTOMER_DASHBOARD_ERROR`.  A rejected
`Promise.all` is modelled by sequential short-circuiting on the first error in
argument order. -/

/-- A thrown JS error (only its message is observed). -/
structure Err where
  message : String
deriving DecidableEq

/-- A `GraphQLError` with its `extensions.code`. -/
structure GqlError where
  message : String
  code : String
deriving DecidableEq

/-- The host-service behaviours `getCustomerDashboard` depends on, each call
either returning a value or throwing. -/
structure DashEnv (V : Type) where
  getCustomerProfile : String → Except Err V
  getFinancialSummary : String → Except Err V
  getRecentActivity : String → ℕ → Except Err V
  getAccountOverview : String → Except Err V
  getProductHoldings : String → Except Err V
  getCreditCardSummary : String → Except Err V
  getInvestmentData : String → Except Err V

/-- The dashboard record returned on success. -/
structure Dashboard (V : Type) where
  profile : V
  financialSummary : V
  recentActivity : V
  accountOverview : V
  productHoldings : V
  creditCardSummary : V
  investmentData : V
deriving DecidableEq

/-- The `GraphQLError` thrown by the resolver's catch block. -/
def dashboardError (e : Err) : GqlError :=
  ⟨"Failed to fetch customer dashboard: " ++ e.message, "CUSTOMER_DASHBOARD_ERROR"⟩

/-- `getCustomerDashboard(_, { customerId }, ctx)`. -/
def getCustomerDashboard {V : Type} (env : DashEnv V) (customerId : String) :
    Except GqlError (Dashboard V) :=
  match env.getCustomerProfile customerId with
  | .error e => .error (dashboardError e)
  | .ok profile =>
    match env.getFinancialSummary customerId with
    | .error e => .error (dashboardError e)
    | .ok financialSummary =>
      match env.getRecentActivity customerId 10 with
      | .error e => .error (dashboardError e)
      | .ok recentActivity =>
        match env.getAccountOverview customerId with
        | .error e => .error (dashboardError e)
        | .ok accountOverview =>
          match env.getProductHoldings customerId with
          | .error e => .error (dashboardError e)
          | .ok productHoldings =>
            match env.getCreditCardSummary customerId with
            | .error e => .error (dashboardError e)
            | .ok creditCardSummary =>
              match env.getInvestmentData customerId with
              | .error e => .error (dashboardError e)
              | .ok investmentData =>
                .ok ⟨profile, financialSummary, recentActivity, accountOverview,
                  productHoldings, creditCardSummary, investmentData⟩

/-- C7: `getCustomerDashboard` succeeds exactly when the seven single-purpose
service queries succeed for the same customer id (recent activity limited to
10), returning precisely their results in the seven fields; and whenever it
fails, the raised `GraphQLError` carries code `CUSTOMER_DASHBOARD_ERROR`. -/
theorem getCustomerDashboard_spec {V : Type} (env : DashEnv V) (cid : String) :
    (∀ d, getCustomerDashboard env cid = .ok d →
        env.getCustomerProfile cid = .ok d.profile
        ∧ env.getFinancialSummary cid = .ok d.financialSummary
        ∧ env.getRecentActivity cid 10 = .ok d.recentActivity
        ∧ env.getAccountOverview cid = .ok d.accountOverview
        ∧ env.getProductHoldings cid = .ok d.productHoldings
        ∧ env.getCreditCardSummary cid = .ok d.creditCardSummary
        ∧ env.getInvestmentData cid = .ok d.investmentData)
    ∧ (∀ g, getCustomerDashboard env cid = .error g → g.code = "CUSTOMER_DASHBOARD_ERROR")
    ∧ (∀ p f r a pr c i,
        env.getCustomerProfile cid = .ok p → env.getFinancialSummary cid = .ok f →
        env.getRecentActivity cid 10 = .ok r → env.getAccountOverview cid = .ok a →
        env.getProductHoldings cid = .ok pr → env.getCreditCardSummary cid = .ok c →
        env.getInvestmentData cid = .ok i →
        getCustomerDashboard env cid = .ok ⟨p, f, r, a, pr, c, i⟩) := by
  refine ⟨?_, ?_, ?_⟩
  · intro d hd
    unfold getCustomerDashboard at hd
    split at hd
    · simp at hd
    next p h1 =>
      split at hd
      · simp at hd
      next f h2 =>
        split at hd
        · simp at hd
        next r h3 =>
          split at hd
          · simp at hd
          next a h4 =>
            split at hd
            · simp at hd
            next pr h5 =>
              split at hd
              · simp at hd
              next c h6 =>
                split at hd
                · simp at hd
                next i h7 =>
                  cases hd
                  exact ⟨h1, h2, h3, h4, h5, h6, h7⟩
  · intro g hg
    unfold getCustomerDashboard at hg
    split at hg
    · cases hg; rfl
    next p h1 =>
      split at hg
      · cases hg; rfl
      next f h2 =>
        split at hg
        · cases hg; rfl
        next r h3 =>
          split at hg
          · cases hg; rfl
          next a h4 =>
            split at hg
            · cases hg; rfl
            next pr h5 =>
              split at hg
              · cases hg; rfl
              next c h6 =>
                split at hg
                · cases hg; rfl
                next i h7 => simp at hg
  · intro p f r a pr c i h1 h2 h3 h4 h5 h6 h7
    simp [getCustomerDashboard, h1, h2, h3, h4, h5, h6, h7]

/-- Witness for C7 at a concrete all-succeeding environment. -/
theorem getCustomerDashboard_spec_witness :
    getCustomerDashboard
        (DashEnv.mk (V := ℕ) (fun _ => .ok 1) (fun _ => .ok 2) (fun _ _ => .ok 3)
          (fun _ => .ok 4) (fun _ => .ok 5) (fun _ => .ok 6) (fun _ => .ok 7)) "42"
      = .ok ⟨1, 2, 3, 4, 5, 6, 7⟩ :=
  (getCustomerDashboard_spec
      (DashEnv.mk (V := ℕ) (fun _ => .ok 1) (fun _ => .ok 2) (fun _ _ => .ok 3)
        (fun _ => .ok 4) (fun _ => .ok 5) (fun _ => .ok 6) (fun _ => .ok 7)) "42").2.2
    1 2 3 4 5 6 7 rfl rfl rfl rfl rfl rfl rfl

/-! ## `chatQuery` and its polling loop (`biuAgentResolver.ts` lines 301-451)

`chatQuery` looks up the customer profile, creates an asking task from the
context-enhanced question, then polls `getAskingTask` in a `while (true)` loop:
a missing result returns an apology, a `FINISHED`/`FAILED`/`STOPPED` status
breaks the loop, a `Date.now()` past the 60-second deadline returns a timeout
message, and otherwise the loop sleeps one second and re-polls.  After the
loop it handles failed/non-SQL results, injects the customer filter into the
candidate SQL (`buildFinalSqlB`), executes it with limit 100 and formats the
rows; the enclosing `try`/`catch` converts any thrown error into an error
string.

Host behaviours are an explicit environment: each service call either returns
a value or throws (`Except Err`), poll results may vary by poll index, and
`Date.now()` is a clock indexed by poll iteration.  The one-second
`setTimeout` between iterations makes the clock advance by at least 1000 ms
per iteration (`clock_step`), and the deadline base is read before the first
poll (`t0_le`); the loop is defined by well-founded recursion on the time
remaining to the deadline. -/

/-- Statuses of an asking task; the loop treats `FINISHED`, `FAILED` and
`STOPPED` as terminal. -/
inductive AskStatus where
  | UNDERSTANDING
  | SEARCHING
  | GENERATING
  | FINISHED
  | FAILED
  | STOPPED
deriving DecidableEq

/-- The loop's exit condition on a status (resolver lines 346-351). -/
def isTerminalStatus : AskStatus → Bool
  | .FINISHED => true
  | .FAILED => true
  | .STOPPED => true
  | _ => false

/-- Result types of an asking task. -/
inductive AskType where
  | TEXT_TO_SQL
  | GENERAL
deriving DecidableEq

/-- The optional `error` payload of an ask result. -/
structure ErrInfo where
  message : String
deriving DecidableEq

/-- One SQL candidate of an ask result (its `sql` may be absent). -/
structure Candidate where
  sql : Option String
deriving DecidableEq

/-- An asking task result as read by `chatQuery`. -/
structure AskResult where
  status : AskStatus
  type : Option AskType
  error : Option ErrInfo
  candidates : List Candidate
deriving DecidableEq

/-- A created asking task (only its id is used). -/
structure Task where
  id : ℕ
deriving DecidableEq

/-- The current project (only its language is read). -/
structure Project where
  language : String
deriving DecidableEq

/-- The customer profile fields `chatQuery` reads. -/
structure ChatProfile where
  customerName : String
deriving DecidableEq

/-- A row returned by `executeQuery`: field name to nullable display value. -/
abbrev ChatRow := List (String × Option String)

/-- The host-service behaviours and the clock that `chatQuery` runs against. -/
structure ChatEnv where
  getCustomerProfile : String → Except Err (Option ChatProfile)
  getCurrentProject : Except Err Project
  createAskingTask : String → Except Err Task
  getAskingTask : ℕ → ℕ → Except Err (Option AskResult)
  executeQuery : String → ℕ → Except Err (List ChatRow)
  t0 : ℕ
  clock : ℕ → ℕ
  t0_le : t0 ≤ clock 0
  clock_step : ∀ n, clock n + 1000 ≤ clock (n + 1)

/-- How the polling loop exits (other than by a thrown error). -/
inductive PollExit where
  | noResult
  | timedOut
  | finished (r : AskResult)
deriving DecidableEq

/-- The `while (true)` polling loop (resolver lines 340-359): poll, exit on a
missing result or a terminal status, return a timeout once the deadline has
passed, otherwise sleep a second and re-poll.  Well-founded on the time left
to the deadline, which shrinks by at least 1000 ms per iteration. -/
def pollLoopE (env : ChatEnv) (taskId : ℕ) (deadline : ℕ) (n : ℕ) :
    Except Err PollExit :=
  match env.getAskingTask taskId n with
  | .error e => .error e
  | .ok none => .ok .noResult
  | .ok (some r) =>
    if isTerminalStatus r.status then .ok (.finished r)
    else if deadline < env.clock n then .ok .timedOut
    else pollLoopE env taskId deadline (n + 1)
termination_by deadline + 1 - env.clock n
decreasing_by
  have h := env.clock_step n
  omega

/-- The polling loop bounded by an explicit number of polls (`none` when the
bound is exhausted before the loop exits). -/
def pollLoopFuelE (env : ChatEnv) (taskId : ℕ) (deadline : ℕ) :
    ℕ → ℕ → Option (Except Err PollExit)
  | _, 0 => none
  | n, fuel + 1 =>
    match env.getAskingTask taskId n with
    | .error e => some (.error e)
    | .ok none => some (.ok .noResult)
    | .ok (some r) =>
      if isTerminalStatus r.status then some (.ok (.finished r))
      else if deadline < env.clock n then some (.ok .timedOut)
      else pollLoopFuelE env taskId deadline (n + 1) fuel

instance exceptDecEq {ε α : Type} [DecidableEq ε] [DecidableEq α] :
    DecidableEq (Except ε α) := fun a b =>
  match a, b with
  | .ok x, .ok y =>
    if h : x = y then isTrue (by rw [h]) else isFalse (fun hc => h (Except.ok.inj hc))
  | .error x, .error y =>
    if h : x = y then isTrue (by rw [h]) else isFalse (fun hc => h (Except.error.inj hc))
  | .ok _, .error _ => isFalse (fun hc => Except.noConfusion hc)
  | .error _, .ok _ => isFalse (fun hc => Except.noConfusion hc)

/-- The context-enhanced question (resolver line 322); an empty customer name
is falsy in JS and falls back to `'customer'`. -/
def enhancedQuestion (customerId : String) (p : ChatProfile) (question : String) : String :=
  "For customer " ++ customerId ++ " ("
    ++ (if p.customerName = "" then "customer" else p.customerName) ++ "): " ++ question

/-- `askResult.error?.message || 'Please try rephrasing your question.'`. -/
def errMsgOrDefault (r : AskResult) : String :=
  match r.error with
  | some e => if e.message = "" then "Please try rephrasing your question." else e.message
  | none => "Please try rephrasing your question."

/-- `askResult.candidates?.[0]?.sql`. -/
def candidateSql (r : AskResult) : Option String :=
  match r.candidates with
  | [] => none
  | c :: _ => c.sql

/-- A Lean string from character codes (bridges the byte-level
`buildFinalSqlB` back to the string passed to `executeQuery`). -/
def strOfB (l : List ℕ) : String := ⟨l.map Char.ofNat⟩

/-- The `finalSql` passed to `executeQuery` (resolver lines 380-403). -/
def buildFinalSql (customerId sql : String) : String :=
  strOfB (buildFinalSqlB (strB customerId) (strB sql))

/-- `customerProfile.customerName || customerId`. -/
def displayName (p : ChatProfile) (customerId : String) : String :=
  if p.customerName = "" then customerId else p.customerName

/-- `key.replace(/([A-Z])/g, ' $1').replace(/^./, c => c.toUpperCase()).trim()`
(resolver lines 417-420). -/
def formatKey (key : String) : String :=
  let spaced := key.data.foldr
    (fun c acc => if c.isUpper then ' ' :: c :: acc else c :: acc) []
  let upped := match spaced with
    | [] => ([] : List Char)
    | c :: rest => c.toUpper :: rest
  (⟨upped⟩ : String).trim

/-- The single-result response (resolver lines 410-424). -/
def formatSingle (p : ChatProfile) (customerId : String) (row : ChatRow) : String :=
  "Here's what I found for customer " ++ displayName p customerId ++ ":\n\n"
    ++ row.foldl
      (fun resp kv =>
        match kv.2 with
        | none => resp
        | some v => resp ++ "- " ++ formatKey kv.1 ++ ": " ++ v ++ "\n") ""

/-- One numbered block of the multi-result response (resolver lines 428-441). -/
def formatMultiRow (resp : String) (ir : ℕ × ChatRow) : String :=
  (ir.2.foldl
    (fun r kv =>
      match kv.2 with
      | none => r
      | some v => r ++ "  - " ++ formatKey kv.1 ++ ": " ++ v ++ "\n")
    (resp ++ "Result " ++ toString (ir.1 + 1) ++ ":\n")) ++ "\n"

/-- The multi-result response (resolver lines 425-446). -/
def formatMulti (p : ChatProfile) (customerId : String) (rows : List ChatRow) : String :=
  let body := ((rows.take 10).enum).foldl formatMultiRow
    ("I found " ++ toString rows.length ++ " results for customer "
      ++ displayName p customerId ++ ":\n\n")
  if rows.length > 10 then
    body ++ "... and " ++ toString (rows.length - 10) ++ " more results."
  else body

/-- The body of `chatQuery`'s `try` block (resolver lines 309-446): `.ok s`
is a normal return of the string `s`, `.error e` a thrown error reaching the
`catch`. -/
def chatQueryBody (env : ChatEnv) (customerId question : String) : Except Err String :=
  match env.getCustomerProfile customerId with
  | .error e => .error e
  | .ok none =>
    .ok ("I couldn't find customer " ++ customerId ++ ". Please verify the customer ID.")
  | .ok (some customerProfile) =>
    match env.getCurrentProject with
    | .error e => .error e
    | .ok _project =>
      match env.createAskingTask (enhancedQuestion customerId customerProfile question) with
      | .error e => .error e
      | .ok task =>
        match pollLoopE env task.id (env.t0 + 60000) 0 with
        | .error e => .error e
        | .ok .noResult =>
          .ok "Sorry, I couldn't process your question. Please try again."
        | .ok .timedOut =>
          .ok "Sorry, the query timed out. Please try again with a more specific question."
        | .ok (.finished askResult) =>
          if askResult.status = .FAILED ∨ askResult.status = .STOPPED then
            .ok ("Sorry, I couldn't process your question. " ++ errMsgOrDefault askResult)
          else if askResult.type ≠ some .TEXT_TO_SQL then
            .ok ("I understand you're asking about customer " ++ customerId
              ++ ". For more specific information, please try asking about their accounts, transactions, or financial summary.")
          else
            match candidateSql askResult with
            | none =>
              .ok "I couldn't generate a query for your question. Please try rephrasing it."
            | some sql =>
              match env.executeQuery (buildFinalSql customerId sql) 100 with
              | .error e => .error e
              | .ok [] =>
                .ok ("I found no data matching your query for customer " ++ customerId ++ ".")
              | .ok (row :: rest) =>
                if rest = [] then .ok (formatSingle customerProfile customerId row)
                else .ok (formatMulti customerProfile customerId (row :: rest))

/-- The `catch` block's return value (resolver line 449). -/
def chatCatchMsg (e : Err) : String :=
  "I encountered an error while processing your query: " ++ e.message
    ++ ". Please try again or verify the customer ID."

/-- `chatQuery(_, { customerId, question }, ctx)`: the `try` body wrapped in
the catch-all that converts a thrown error into an error-message string. -/
def chatQuery (env : ChatEnv) (customerId question : String) : String :=
  match chatQueryBody env customerId question with
  | .ok s => s
  | .error e => chatCatchMsg e

/-- The clock advances by at least 1000 ms per poll iteration. -/
theorem clock_lower_bound (env : ChatEnv) :
    ∀ (k n : ℕ), env.clock n + 1000 * k ≤ env.clock (n + k) := by
  intro k
  induction k with
  | zero => intro n; simp
  | succ k ih =>
    intro n
    have h1 := ih n
    have h2 := env.clock_step (n + k)
    have h3 : n + (k + 1) = (n + k) + 1 := by ring
    rw [h3]
    omega

/-- A bounded run that completes agrees with the unbounded loop. -/
theorem pollLoopFuelE_sound (env : ChatEnv) (taskId deadline : ℕ) :
    ∀ (fuel n : ℕ) (out : Except Err PollExit),
      pollLoopFuelE env taskId deadline n fuel = some out →
      pollLoopE env taskId deadline n = out := by
  intro fuel
  induction fuel with
  | zero =>
    intro n out h
    simp [pollLoopFuelE] at h
  | succ fuel ih =>
    intro n out h
    cases hg : env.getAskingTask taskId n with
    | error e =>
      simp only [pollLoopFuelE, hg, Option.some.injEq] at h
      rw [pollLoopE, hg]
      exact h
    | ok o =>
      cases o with
      | none =>
        simp only [pollLoopFuelE, hg, Option.some.injEq] at h
        rw [pollLoopE, hg]
        exact h
      | some r =>
        by_cases ht : isTerminalStatus r.status = true
        · simp only [pollLoopFuelE, hg, ht, if_true, Option.some.injEq] at h
          rw [pollLoopE, hg]
          simp only [ht, if_true]
          exact h
        · by_cases hd : deadline < env.clock n
          · simp only [pollLoopFuelE, hg, ht, hd, if_false, if_true,
              Bool.false_eq_true, reduceIte, Option.some.injEq] at h
            rw [pollLoopE, hg]
            simp only [ht, hd, Bool.false_eq_true, reduceIte, if_true]
            exact h
          · simp only [pollLoopFuelE, hg, ht, hd, Bool.false_eq_true, reduceIte] at h
            rw [pollLoopE, hg]
            simp only [ht, hd, Bool.false_eq_true, reduceIte]
            exact ih (n + 1) out h

/-- If the deadline is crossed within the bound, the bounded run completes. -/
theorem pollLoopFuelE_isSome (env : ChatEnv) (taskId deadline : ℕ) :
    ∀ (fuel n : ℕ), (∃ k < fuel, deadline < env.clock (n + k)) →
      (pollLoopFuelE env taskId deadline n fuel).isSome = true := by
  intro fuel
  induction fuel with
  | zero =>
    rintro n ⟨k, hk, -⟩
    omega
  | succ fuel ih =>
    rintro n ⟨k, hk, hdead⟩
    cases hg : env.getAskingTask taskId n with
    | error e => simp [pollLoopFuelE, hg]
    | ok o =>
      cases o with
      | none => simp [pollLoopFuelE, hg]
      | some r =>
        by_cases ht : isTerminalStatus r.status = true
        · simp [pollLoopFuelE, hg, ht]
        · by_cases hd : deadline < env.clock n
          · simp [pollLoopFuelE, hg, ht, hd]
          · simp only [pollLoopFuelE, hg, ht, hd, Bool.false_eq_true, reduceIte]
            apply ih (n + 1)
            have hk0 : k ≠ 0 := by
              intro h0
              rw [h0, Nat.add_zero] at hdead
              exact hd hdead
            refine ⟨k - 1, by omega, ?_⟩
            have harith : n + 1 + (k - 1) = n + k := by omega
            rw [harith]
            exact hdead

/-- A completed bounded run exits as the loop dictates: a `finished` exit
carries a terminal status and a timeout exit happens only past the deadline. -/
theorem pollLoopFuelE_exit (env : ChatEnv) (taskId deadline : ℕ) :
    ∀ (fuel n : ℕ) (out : Except Err PollExit),
      pollLoopFuelE env taskId deadline n fuel = some out →
      (∀ r, out = .ok (.finished r) → isTerminalStatus r.status = true)
      ∧ (out = .ok .timedOut → ∃ m, n ≤ m ∧ m < n + fuel ∧ deadline < env.clock m) := by
  intro fuel
  induction fuel with
  | zero =>
    intro n out h
    simp [pollLoopFuelE] at h
  | succ fuel ih =>
    intro n out h
    cases hg : env.getAskingTask taskId n with
    | error e =>
      simp only [pollLoopFuelE, hg, Option.some.injEq] at h
      subst h
      exact ⟨fun r hr => (by cases hr), fun hr => (by cases hr)⟩
    | ok o =>
      cases o with
      | none =>
        simp only [pollLoopFuelE, hg, Option.some.injEq] at h
        subst h
        exact ⟨fun r hr => (by cases hr), fun hr => (by cases hr)⟩
      | some r0 =>
        by_cases ht : isTerminalStatus r0.status = true
        · simp only [pollLoopFuelE, hg, ht, if_true, Option.some.injEq] at h
          subst h
          refine ⟨fun r hr => ?_, fun hr => (by cases hr)⟩
          cases hr
          exact ht
        · by_cases hd : deadline < env.clock n
          · simp only [pollLoopFuelE, hg, ht, hd, Bool.false_eq_true, reduceIte,
              if_true, Option.some.injEq] at h
            subst h
            refine ⟨fun r hr => (by cases hr), fun _ => ⟨n, le_refl n, (by omega), hd⟩⟩
          · simp only [pollLoopFuelE, hg, ht, hd, Bool.false_eq_true, reduceIte] at h
            obtain ⟨hfin, hto⟩ := ih (n + 1) out h
            refine ⟨hfin, fun hr => ?_⟩
            obtain ⟨m, hm1, hm2, hm3⟩ := hto hr
            exact ⟨m, by omega, by omega, hm3⟩

/-- C1: the `chatQuery` polling loop terminates for every sequence of poll
results: it re-polls at a one-second interval, so within 62 polls it either
exits on a missing result, a thrown error, or a `FINISHED`/`FAILED`/`STOPPED`
status, or returns the timeout once the 60-second deadline set at loop entry
has elapsed — the unbounded loop equals a 62-poll bounded run, a `finished`
exit carries a terminal status, and a timeout exit happens only past the
deadline. -/
theorem chatQuery_polling_terminates (env : ChatEnv) (taskId : ℕ) :
    pollLoopFuelE env taskId (env.t0 + 60000) 0 62
        = some (pollLoopE env taskId (env.t0 + 60000) 0)
    ∧ (∀ r, pollLoopE env taskId (env.t0 + 60000) 0 = .ok (.finished r) →
        isTerminalStatus r.status = true)
    ∧ (pollLoopE env taskId (env.t0 + 60000) 0 = .ok .timedOut →
        ∃ m < 62, env.t0 + 60000 < env.clock m) := by
  have hsome : (pollLoopFuelE env taskId (env.t0 + 60000) 0 62).isSome = true := by
    apply pollLoopFuelE_isSome
    refine ⟨61, by omega, ?_⟩
    have hb := clock_lower_bound env 61 0
    have ht := env.t0_le
    omega
  obtain ⟨out, hout⟩ := Option.isSome_iff_exists.mp hsome
  have heq := pollLoopFuelE_sound env taskId (env.t0 + 60000) 62 0 out hout
  have hexit := pollLoopFuelE_exit env taskId (env.t0 + 60000) 62 0 out hout
  refine ⟨by rw [hout, heq], ?_, ?_⟩
  · intro r hr
    exact hexit.1 r (heq.symm.trans hr)
  · intro hto
    obtain ⟨m, -, hm2, hm3⟩ := hexit.2 (heq.symm.trans hto)
    exact ⟨m, by omega, hm3⟩

/-- A concrete environment whose asking task never reaches a terminal status
and whose clock ticks exactly one second per poll. -/
def pollEnvW : ChatEnv where
  getCustomerProfile := fun _ => .ok none
  getCurrentProject := .ok ⟨"EN"⟩
  createAskingTask := fun _ => .ok ⟨0⟩
  getAskingTask := fun _ _ => .ok (some ⟨.UNDERSTANDING, none, none, []⟩)
  executeQuery := fun _ _ => .ok []
  t0 := 0
  clock := fun n => 1000 * n
  t0_le := by simp
  clock_step := by
    intro n
    show 1000 * n + 1000 ≤ 1000 * (n + 1)
    omega

/-- Witness for C1: on `pollEnvW` the loop exits by timeout, and the theorem
produces the deadline crossing. -/
theorem chatQuery_polling_terminates_witness :
    ∃ m < 62, pollEnvW.t0 + 60000 < pollEnvW.clock m := by
  apply (chatQuery_polling_terminates pollEnvW 0).2.2
  have h1 := (chatQuery_polling_terminates pollEnvW 0).1
  have h2 : pollLoopFuelE pollEnvW 0 (pollEnvW.t0 + 60000) 0 62
      = some (Except.ok PollExit.timedOut) := by decide
  rw [h2] at h1
  exact (Option.some.inj h1).symm

/-- C2: for every input and every behaviour of the host services (arbitrary
results or thrown errors), `chatQuery` returns a string and never raises: its
body always yields a normal string or a thrown error, the catch-all converts
the latter into an error-message string, and each failure path (customer not
found, poll returning nothing, timeout, `FAILED`/`STOPPED` status, missing
SQL, empty query result, any thrown error) yields its error-message string. -/
theorem chatQuery_error_paths (env : ChatEnv) (cid q : String) :
    ((∃ s, chatQueryBody env cid q = .ok s) ∨ (∃ e, chatQueryBody env cid q = .error e))
    ∧ (∀ s, chatQueryBody env cid q = .ok s → chatQuery env cid q = s)
    ∧ (∀ e, chatQueryBody env cid q = .error e → chatQuery env cid q = chatCatchMsg e)
    ∧ (env.getCustomerProfile cid = .ok none →
        chatQuery env cid q
          = "I couldn't find customer " ++ cid ++ ". Please verify the customer ID.")
    ∧ (∀ p proj task,
        env.getCustomerProfile cid = .ok (some p) →
        env.getCurrentProject = .ok proj →
        env.createAskingTask (enhancedQuestion cid p q) = .ok task →
        (pollLoopE env task.id (env.t0 + 60000) 0 = .ok .noResult →
          chatQuery env cid q = "Sorry, I couldn't process your question. Please try again.")
        ∧ (pollLoopE env task.id (env.t0 + 60000) 0 = .ok .timedOut →
          chatQuery env cid q
            = "Sorry, the query timed out. Please try again with a more specific question.")
        ∧ (∀ r, pollLoopE env task.id (env.t0 + 60000) 0 = .ok (.finished r) →
            (r.status = .FAILED ∨ r.status = .STOPPED) →
            chatQuery env cid q
              = "Sorry, I couldn't process your question. " ++ errMsgOrDefault r)
        ∧ (∀ r, pollLoopE env task.id (env.t0 + 60000) 0 = .ok (.finished r) →
            r.status = .FINISHED → r.type = some .TEXT_TO_SQL → candidateSql r = none →
            chatQuery env cid q
              = "I couldn't generate a query for your question. Please try rephrasing it.")
        ∧ (∀ r sql, pollLoopE env task.id (env.t0 + 60000) 0 = .ok (.finished r) →
            r.status = .FINISHED → r.type = some .TEXT_TO_SQL → candidateSql r = some sql →
            env.executeQuery (buildFinalSql cid sql) 100 = .ok [] →
            chatQuery env cid q
              = "I found no data matching your query for customer " ++ cid ++ ".")) := by
  refine ⟨?_, ?_, ?_, ?_, ?_⟩
  · cases h : chatQueryBody env cid q with
    | ok s => exact Or.inl ⟨s, rfl⟩
    | error e => exact Or.inr ⟨e, rfl⟩
  · intro s h
    simp [chatQuery, h]
  · intro e h
    simp [chatQuery, h]
  · intro h
    simp [chatQuery, chatQueryBody, h]
  · intro p proj task h1 h2 h3
    refine ⟨?_, ?_, ?_, ?_, ?_⟩
    · intro hloop
      simp [chatQuery, chatQueryBody, h1, h2, h3, hloop]
    · intro hloop
      simp [chatQuery, chatQueryBody, h1, h2, h3, hloop]
    · intro r hloop hFS
      rcases hFS with hF | hS
      · simp [chatQuery, chatQueryBody, h1, h2, h3, hloop, hF]
      · simp [chatQuery, chatQueryBody, h1, h2, h3, hloop, hS]
    · intro r hloop hstat htype hsql
      simp [chatQuery, chatQueryBody, h1, h2, h3, hloop, hstat, htype, hsql]
    · intro r sql hloop hstat htype hsql hexec
      simp [chatQuery, chatQueryBody, h1, h2, h3, hloop, hstat, htype, hsql, hexec]

/-- Witness for C2: on a service whose profile lookup returns nothing,
`chatQuery` returns the customer-not-found string. -/
theorem chatQuery_error_paths_witness :
    chatQuery pollEnvW "42" "hi"
      = "I couldn't find customer " ++ "42" ++ ". Please verify the customer ID." :=
  (chatQuery_error_paths pollEnvW "42" "hi").2.2.2.1 rfl

/-- An asking task whose finished result carries the candidate SQL
`DELETE FROM accounts`. -/
def delAskResult : AskResult :=
  ⟨.FINISHED, some .TEXT_TO_SQL, none, [⟨some "DELETE FROM accounts"⟩]⟩

/-- An environment whose query service observes whether the SQL it is handed
is a SELECT statement, and whose asking task returns `delAskResult`. -/
def chatEnvDel : ChatEnv where
  getCustomerProfile := fun _ => .ok (some ⟨"Alice"⟩)
  getCurrentProject := .ok ⟨"EN"⟩
  createAskingTask := fun _ => .ok ⟨0⟩
  getAskingTask := fun _ _ => .ok (some delAskResult)
  executeQuery := fun sql _ =>
    if isSelectStr sql then .ok [] else .error ⟨"issued non-SELECT"⟩
  t0 := 0
  clock := fun n => 1000 * n
  t0_le := by simp
  clock_step := by
    intro n
    show 1000 * n + 1000 ≤ 1000 * (n + 1)
    omega

/-- C4 counterexample: the claim "every SQL statement issued through the query
services is a SELECT" fails for `chatQuery`: for the candidate SQL
`DELETE FROM accounts` returned by the asking task, the final SQL that
`chatQuery` passes to `executeQuery` (`buildFinalSqlB`) is not a SELECT
statement — and on an environment whose query service rejects non-SELECT
input (`chatEnvDel`), `chatQuery` indeed hands it that SQL and ends in
the catch block. -/
theorem chatQuery_forwards_non_select :
    isSelectB (buildFinalSqlB (strB "1") (strB "DELETE FROM accounts")) = false
    ∧ chatQuery chatEnvDel "1" "drop the accounts table"
        = chatCatchMsg ⟨"issued non-SELECT"⟩ := by
  refine ⟨by decide, ?_⟩
  have hsql : isSelectStr (buildFinalSql "1" "DELETE FROM accounts") = false := by
    decide
  have hloop : pollLoopE chatEnvDel 0 (chatEnvDel.t0 + 60000) 0
      = .ok (.finished delAskResult) := by
    rw [pollLoopE]
    rfl
  have h1 : chatEnvDel.getCustomerProfile "1" = .ok (some ⟨"Alice"⟩) := rfl
  have h2 : chatEnvDel.getCurrentProject = .ok ⟨"EN"⟩ := rfl
  have h3 : chatEnvDel.createAskingTask
      (enhancedQuestion "1" ⟨"Alice"⟩ "drop the accounts table") = .ok ⟨0⟩ := rfl
  have hexec : chatEnvDel.executeQuery (buildFinalSql "1" "DELETE FROM accounts") 100
      = .error ⟨"issued non-SELECT"⟩ := by
    simp only [chatEnvDel]
    rw [hsql]
    simp
  simp [chatQuery, chatQueryBody, h1, h2, h3, hloop, delAskResult, candidateSql, hexec]

end BiuAgent
